import Mathlib

set_option linter.unusedVariables false

/-!
Shallow embedding of the gograpple patch/rollback engine (`src/patch.go`).

The engine orchestrates external cluster/image commands (`kubeCmd` /
`dockerCmd`).  Those gateways are external collaborators whose
implementations are not under `src/`; following spec §6 they are modelled
as oracle-driven operations on an explicit cluster state: every external
call consumes one index of a failure oracle (`Env.fail`), records an
`Act` in a trace, and on success applies its documented state effect.
The control flow of `Patch`, `Rollback`, `isPatched` and `rollback` is
transliterated line by line from `src/patch.go`.
-/

/-- Kinds of external operations issued by the engine (one per call site
kind in `src/patch.go`). -/
inductive Op
  | getDeployment
  | validateContainer
  | imageInspect
  | deleteConfigMap
  | createConfigMap
  | waitForRollout
  | readAsset
  | writeFile
  | marshal
  | buildImage
  | pushImage
  | renderPatch
  | patchDeployment
  | getLatestRevision
  | rolloutUndo
  | updateChangeCause
deriving DecidableEq, Repr

/-- One entry of the execution trace: which command was issued, with which
argument, and whether it succeeded. -/
inductive Act
  | getDep (ok : Bool)
  | validate (ok : Bool)
  | inspect (ok : Bool)
  | deleteCM (name : String) (ok : Bool)
  | createCM (name : String) (ok : Bool)
  | waitRollout (ok : Bool)
  | readAsset (ok : Bool)
  | mkdirTmp
  | writeFile (ok : Bool)
  | marshal (ok : Bool)
  | build (ok : Bool)
  | push (ok : Bool)
  | render (ok : Bool)
  | patchDep (ok : Bool)
  | getRev (ok : Bool)
  | undo (rev : Int) (ok : Bool)
  | changeCause (ok : Bool)
deriving DecidableEq, Repr

/-- Errors returned by the engine.  Each constructor corresponds to one
error site of `src/patch.go` (`Err.msg` renders the Go message);
`Err.opFail o` stands for a propagated failure of the external operation
`o` (spec §7: external-tool failures are propagated verbatim). -/
inductive Err
  | opFail (o : Op)
  | notPatched
  | exhausted (deployment : String)
  | mismatch (image imagePlatform platform : String)
  | unknownContainer (container : String)
  | cmAbsent (name : String)
  | cmExists (name : String)
  | depNotFound
deriving DecidableEq, Repr

/-- Go error message of each engine error, copied from `src/patch.go`
format strings (external-tool messages are abstracted). -/
def Err.msg : Err → String
  | .opFail _ => "external command failed"
  | .notPatched => "deployment not patched, stopping rollback"
  | .exhausted d => "couldnt rollback deployment " ++ d ++ " into unpatched state"
  | .mismatch i ip p =>
      "Provided image \"" ++ i ++ "\" was built for platform \"" ++ ip ++
      "\", and configured platform is \"" ++ p ++ "\", please rebuild for correct platform"
  | .unknownContainer c => "container " ++ c ++ " not found"
  | .cmAbsent n => "configmap " ++ n ++ " not found"
  | .cmExists n => "configmap " ++ n ++ " already exists"
  | .depNotFound => "deployment not found"

/-- Host/container mount pair (`Mount` in `src/patch.go`). -/
structure Mount where
  HostPath : String
  MountPath : String
deriving DecidableEq, Repr

/-- A workload (Deployment): name, pod-template annotations, containers of
the pod template, and its latest revision number (spec §3 Workload). -/
structure Dep where
  name : String
  annotations : List (String × String)
  containers : List String
  revision : Int
deriving DecidableEq, Repr

/-- Live cluster state: the single target workload of this invocation
(spec §1: one workload per invocation) and the existing configmap names. -/
structure Cluster where
  dep : Option Dep
  configMaps : List String
deriving DecidableEq, Repr

/-- Environment of a run: the injected-failure oracle (call index × op),
the platform that `docker image inspect` reports for the candidate image,
and the pod-template annotations the cluster restores when undoing to a
given revision (kubectl `rollout undo` semantics, modelled from spec §3
Revision History / §6). -/
structure Env where
  fail : Nat → Op → Bool
  inspectPlatform : String
  undoHist : Int → List (String × String)

/-- Mutable run state threaded through the engine: cluster, number of
external calls issued so far, and the trace of issued commands. -/
structure S where
  cluster : Cluster
  idx : Nat
  trace : List Act
deriving DecidableEq, Repr

/-- The engine monad: fallible state transformer over `S`, reading `Env`. -/
def M (α : Type) : Type := Env → S → Except Err α × S

instance : Monad M where
  pure a := fun _ s => (.ok a, s)
  bind x f := fun env s =>
    match x env s with
    | (.ok a, s') => f a env s'
    | (.error e, s') => (.error e, s')

/-- Abort with an engine error (a `return fmt.Errorf(...)` in the Go). -/
def thrM (e : Err) : M α := fun _ s => (.error e, s)

/-- Run a command and discard its result (`_, _ = cmd.Run(ctx)` in the Go:
best-effort, the error is at most logged). -/
def ignoreErr (m : M α) : M Unit := fun env s => (.ok (), (m env s).2)

/-- Append one issued command to the trace and advance the call counter. -/
def record (a : Act) (s : S) : S :=
  { s with idx := s.idx + 1, trace := s.trace ++ [a] }

/- Constants.  Modelled from the spec: the repository's constants file
(`defaultPatchCreator`, `createdByAnnotation`, ... referenced by
`src/patch.go`) is not under `src/`; spec §6 fixes their roles (patch
marker `<fixed-key>=<fixed-creator-value>`, snapshot name
`<workload>-<fixed-suffix>`).  Exact values are immaterial to the claims;
only `createdByKey ≠ changeCauseKey` matters and holds of the real keys. -/

/-- Patch-marker annotation key (`createdByAnnotation` in the source). -/
def createdByKey : String := "gograpple.created-by"

/-- Creator value of the patch marker (`defaultPatchCreator`). -/
def defaultPatchCreator : String := "gograpple"

/-- Change-cause annotation key written by `kubectl` change-cause updates. -/
def changeCauseKey : String := "kubernetes.io/change-cause"

/-- Change cause recorded by a patch (`defaultPatchChangeCause`). -/
def defaultPatchChangeCause : String := "gograpple patch"

/-- Suffix of the deployment snapshot configmap name
(`defaultConfigMapDeploymentSuffix`). -/
def defaultConfigMapDeploymentSuffix : String := "-gograpple"

/-- Mount point of the snapshot configmap (`defaultConfigMapMount`). -/
def defaultConfigMapMount : String := "/etc/gograpple"

/-- Tag of the built patch image (`defaultTag`). -/
def defaultTag : String := "latest"

/-- Suffix of the patch image name (`defaultPatchImageSuffix`). -/
def defaultPatchImageSuffix : String := "-patch"

/-- Platform suggestions offered by the configuration wizard
(`Config.PlatformSuggest` in `src/unnamed/part_000` lines 106-108). -/
def PlatformSuggest : List String := ["linux/amd64", "linux/arm64"]

/-- Look up an annotation key in a pod-template annotation set. -/
def lookupAnn (k : String) (l : List (String × String)) : Option String :=
  (l.find? (fun p => p.1 == k)).map Prod.snd

/-- Set an annotation key (annotations are a map in Kubernetes: setting a
key replaces any previous binding of that key). -/
def setAnn (k v : String) (l : List (String × String)) : List (String × String) :=
  (k, v) :: l.filter (fun p => p.1 != k)

/-- The patch-marker test of `isPatched` (`src/patch.go` lines 163-164):
the marker key is present and equals the creator value. -/
def isMarked (l : List (String × String)) : Bool :=
  decide (lookupAnn createdByKey l = some defaultPatchCreator)

/-- Pure reading of the patched state on a cluster: the workload exists
and its pod-template annotations carry the patch marker. -/
def markerPresent (c : Cluster) : Bool :=
  match c.dep with
  | none => false
  | some d => isMarked d.annotations

/-- The cached engine handle (`Grapple`): the deployment read at start-up
(`g.deployment` in the Go, a cached copy, not the live object). -/
structure Grapple where
  deployment : Dep

/-- `Grapple.DeploymentConfigMapName` (`src/patch.go` lines 195-197). -/
def cmName (g : Grapple) : String :=
  g.deployment.name ++ defaultConfigMapDeploymentSuffix

/-- `Grapple.patchedImageName` (`src/patch.go` lines 199-204). -/
def patchedImageName (g : Grapple) (repo : String) : String :=
  if repo ≠ "" then repo ++ "/" ++ g.deployment.name ++ defaultPatchImageSuffix
  else g.deployment.name ++ defaultPatchImageSuffix

/-- The full patched image reference (`completePatchedImage`,
`src/patch.go` line 115). -/
def completePatchedImage (g : Grapple) (repo : String) : String :=
  patchedImageName g repo ++ ":" ++ defaultTag

/-- Patch template values (`patchValues` in `src/patch.go`). -/
structure PatchValues where
  changeCause : String
  createdBy : String
  deployment : String
  container : String
  configMapMount : String
  mounts : List Mount
  image : String
deriving DecidableEq, Repr

/-- `Grapple.newPatchValues` (`src/patch.go` lines 33-43). -/
def newPatchValues (deployment container image : String) (mounts : List Mount) : PatchValues :=
  { changeCause := defaultPatchChangeCause
    createdBy := defaultPatchCreator
    deployment := deployment
    container := container
    configMapMount := defaultConfigMapMount
    mounts := mounts
    image := image }

/-- `kubeCmd.GetDeployment` wrapped as `isPatched` uses it
(`src/patch.go` lines 158-165): a read failure or a missing workload
yields `false`; otherwise the marker test decides.  Never fails outward. -/
def isPatchedM : M Bool := fun env s =>
  if env.fail s.idx .getDeployment then (.ok false, record (.getDep false) s)
  else
    match s.cluster.dep with
    | none => (.ok false, record (.getDep false) s)
    | some d => (.ok (isMarked d.annotations), record (.getDep true) s)

/-- Modelled from the spec: `kubeCmd.ValidateContainer` is not under
`src/`; spec §4.2 step 2 resolves/validates the container name against the
workload's container list, unresolved name is a hard error.  Read-only. -/
def validateContainerM (g : Grapple) (container : String) : M Unit := fun env s =>
  if env.fail s.idx .validateContainer then
    (.error (.opFail .validateContainer), record (.validate false) s)
  else if container ∈ g.deployment.containers then (.ok (), record (.validate true) s)
  else (.error (.unknownContainer container), record (.validate false) s)

/-- `dockerCmd.ImageInspect -f {\x7b.Os\x7d}/{\x7b.Architecture\x7d}`
(`src/patch.go` line 58): reports the image's built platform. -/
def imageInspectM : M String := fun env s =>
  if env.fail s.idx .imageInspect then
    (.error (.opFail .imageInspect), record (.inspect false) s)
  else (.ok env.inspectPlatform, record (.inspect true) s)

/-- `json.Marshal(g.deployment)` (`src/patch.go` line 68); the serialized
snapshot content is not needed by the claims and is not modelled. -/
def marshalM : M Unit := fun env s =>
  if env.fail s.idx .marshal then (.error (.opFail .marshal), record (.marshal false) s)
  else (.ok (), record (.marshal true) s)

/-- `kubeCmd.DeleteConfigMap` (modelled from spec §6: delete a named state
object; deleting an absent object is an error, as with kubectl). -/
def deleteConfigMapM (n : String) : M Unit := fun env s =>
  if env.fail s.idx .deleteConfigMap then
    (.error (.opFail .deleteConfigMap), record (.deleteCM n false) s)
  else if n ∈ s.cluster.configMaps then
    (.ok (), record (.deleteCM n true)
      { s with cluster := { s.cluster with configMaps := s.cluster.configMaps.filter (· ≠ n) } })
  else (.error (.cmAbsent n), record (.deleteCM n false) s)

/-- `kubeCmd.CreateConfigMap` (modelled from spec §6: create a named state
object; creating an already-existing object is an error, as with kubectl). -/
def createConfigMapM (n : String) : M Unit := fun env s =>
  if env.fail s.idx .createConfigMap then
    (.error (.opFail .createConfigMap), record (.createCM n false) s)
  else if n ∈ s.cluster.configMaps then
    (.error (.cmExists n), record (.createCM n false) s)
  else
    (.ok (), record (.createCM n true)
      { s with cluster := { s.cluster with configMaps := n :: s.cluster.configMaps } })

/-- `kubeCmd.WaitForRollout` (`src/patch.go` line 80): blocking poll,
fails on timeout; no state effect modelled. -/
def waitForRolloutM : M Unit := fun env s =>
  if env.fail s.idx .waitForRollout then
    (.error (.opFail .waitForRollout), record (.waitRollout false) s)
  else (.ok (), record (.waitRollout true) s)

/-- `bindata.ReadFile` of one bundled template asset
(`src/patch.go` lines 94-101). -/
def readAssetM : M Unit := fun env s =>
  if env.fail s.idx .readAsset then (.error (.opFail .readAsset), record (.readAsset false) s)
  else (.ok (), record (.readAsset true) s)

/-- `os.Mkdir(theHookPath, perm)` with the error discarded
(`src/patch.go` line 104). -/
def mkdirM : M Unit := fun _ s => (.ok (), record .mkdirTmp s)

/-- `os.WriteFile` of one extracted template file
(`src/patch.go` lines 105-112). -/
def writeFileM : M Unit := fun env s =>
  if env.fail s.idx .writeFile then (.error (.opFail .writeFile), record (.writeFile false) s)
  else (.ok (), record (.writeFile true) s)

/-- `dockerCmd.Build` (`src/patch.go` lines 117-119). -/
def buildM : M Unit := fun env s =>
  if env.fail s.idx .buildImage then (.error (.opFail .buildImage), record (.build false) s)
  else (.ok (), record (.build true) s)

/-- `dockerCmd.Push` (`src/patch.go` line 127). -/
def pushM : M Unit := fun env s =>
  if env.fail s.idx .pushImage then (.error (.opFail .pushImage), record (.push false) s)
  else (.ok (), record (.push true) s)

/-- `renderTemplate` of the deployment patch (`src/patch.go` lines
134-137): on success the rendered document carries exactly the given
patch values. -/
def renderM (v : PatchValues) : M PatchValues := fun env s =>
  if env.fail s.idx .renderPatch then (.error (.opFail .renderPatch), record (.render false) s)
  else (.ok v, record (.render true) s)

/-- `kubeCmd.PatchDeployment` (`src/patch.go` line 143).  Modelled from
the spec: the patch template asset is not under `src/`; spec §4.5 requires
the rendered document to write the patch-marker annotation (and the
change cause) into the pod template.  Container image/mount effects are
not needed by the claims and are not modelled. -/
def patchDeploymentM (v : PatchValues) : M Unit := fun env s =>
  if env.fail s.idx .patchDeployment then
    (.error (.opFail .patchDeployment), record (.patchDep false) s)
  else
    match s.cluster.dep with
    | none => (.error .depNotFound, record (.patchDep false) s)
    | some d =>
        let d' : Dep := { d with annotations := setAnn createdByKey v.createdBy (setAnn changeCauseKey v.changeCause d.annotations) }
        (.ok (), record (.patchDep true) { s with cluster := { s.cluster with dep := some d' } })

/-- `kubeCmd.GetLatestRevision` (`src/patch.go` line 168), modelled from
spec §6: returns the workload's latest revision number. -/
def getLatestRevisionM : M Int := fun env s =>
  if env.fail s.idx .getLatestRevision then
    (.error (.opFail .getLatestRevision), record (.getRev false) s)
  else
    match s.cluster.dep with
    | none => (.error .depNotFound, record (.getRev false) s)
    | some d => (.ok d.revision, record (.getRev true) s)

/-- `kubeCmd.RolloutUndo` to revision `i` (`src/patch.go` line 180),
modelled from spec §3/§6: undoing restores the pod-template annotations
of the addressed revision (`Env.undoHist i`). -/
def rolloutUndoM (i : Int) : M Unit := fun env s =>
  if env.fail s.idx .rolloutUndo then
    (.error (.opFail .rolloutUndo), record (.undo i false) s)
  else
    match s.cluster.dep with
    | none => (.error .depNotFound, record (.undo i false) s)
    | some d =>
        (.ok (), record (.undo i true)
          { s with cluster := { s.cluster with dep := some { d with annotations := env.undoHist i } } })

/-- `kubeCmd.UpdateChangeCause` (`src/patch.go` line 185), modelled from
spec §6: sets the change-cause annotation (`changeCauseKey`) of the
workload to `rollback to i`. -/
def updateChangeCauseM (i : Int) : M Unit := fun env s =>
  if env.fail s.idx .updateChangeCause then
    (.error (.opFail .updateChangeCause), record (.changeCause false) s)
  else
    match s.cluster.dep with
    | none => (.error .depNotFound, record (.changeCause false) s)
    | some d =>
        let d' : Dep := { d with annotations := setAnn changeCauseKey ("rollback to " ++ toString i) d.annotations }
        (.ok (), record (.changeCause true) { s with cluster := { s.cluster with dep := some d' } })

/-- The revisions visited by the rollback walk of `src/patch.go` line 172:
`for i := revision - 1; i >= 0; i--` visits `r-1, r-2, ..., 0`. -/
def revList (r : Int) : List Int :=
  ((List.range r.toNat).reverse).map Int.ofNat

/-- Body of the rollback walk (`src/patch.go` lines 172-192): per
revision, best-effort snapshot delete (warn-and-continue on failure),
undo, re-check the patched state; stop with success (after annotating the
change cause) at the first unpatched revision, hard error when the
revisions are exhausted. -/
def rollbackLoop (g : Grapple) : List Int → M Unit
  | [] => thrM (.exhausted g.deployment.name)
  | i :: rest => do
      ignoreErr (deleteConfigMapM (cmName g))
      rolloutUndoM i
      let p ← isPatchedM
      if p then rollbackLoop g rest
      else updateChangeCauseM i

/-- `Grapple.rollback` (`src/patch.go` lines 167-193). -/
def rollbackM (g : Grapple) : M Unit := do
  let r ← getLatestRevisionM
  rollbackLoop g (revList r)

/-- `Grapple.Rollback` (`src/patch.go` lines 150-156). -/
def RollbackM (g : Grapple) : M Unit := do
  let p ← isPatchedM
  if p then rollbackM g else thrM .notPatched

/-- The re-patch guard of `src/patch.go` lines 47-52: when the workload
is already patched, fully roll back first. -/
def rollbackIfPatched (g : Grapple) (p : Bool) : M Unit :=
  if p then rollbackM g else pure ()

/-- The platform comparison of `src/patch.go` lines 62-65: a mismatch
between the configured platform and the inspected image platform is a
hard error reporting both values. -/
def checkPlatform (image platform ip : String) : M Unit :=
  if platform ≠ ip then thrM (.mismatch image ip platform) else pure ()

/-- Steps of `Grapple.Patch` before the snapshot is created
(`src/patch.go` lines 47-72): re-patch rollback, container validation,
platform inspection and comparison, serialization, best-effort stale
snapshot delete. -/
def patchPre (g : Grapple) (image platform container : String) : M Unit := do
  let p ← isPatchedM
  rollbackIfPatched g p
  validateContainerM g container
  let ip ← imageInspectM
  checkPlatform image platform ip
  marshalM
  ignoreErr (deleteConfigMapM (cmName g))

/-- The conditional push of `src/patch.go` lines 124-131: the built image
is pushed only when a repository was configured. -/
def maybePushM (repo : String) : M Unit :=
  if repo ≠ "" then pushM else pure ()

/-- Steps of `Grapple.Patch` after the snapshot is created
(`src/patch.go` lines 79-147): rollout wait, template extraction, image
build, optional push, patch rendering and application. -/
def patchTail (g : Grapple) (repo container : String) (mounts : List Mount) : M Unit := do
  waitForRolloutM
  readAssetM
  readAssetM
  mkdirM
  writeFileM
  writeFileM
  buildM
  maybePushM repo
  let v ← renderM (newPatchValues g.deployment.name container (completePatchedImage g repo) mounts)
  patchDeploymentM v

/-- `Grapple.Patch` (`src/patch.go` lines 45-148): the pre-snapshot steps,
the snapshot creation, then the post-snapshot pipeline. -/
def PatchM (g : Grapple) (repo image platform container : String) (mounts : List Mount) : M Unit := do
  patchPre g image platform container
  createConfigMapM (cmName g)
  patchTail g repo container mounts

/-! ## Specification predicates and concrete witness data -/

/-- The program never changes the set of existing configmaps. -/
def PreservesCM {α : Type} (m : M α) : Prop :=
  ∀ env s, ((m env s).2).cluster.configMaps = s.cluster.configMaps

/-- The program only ever appends to the trace. -/
def Appends {α : Type} (m : M α) : Prop :=
  ∀ env s, ∃ t, ((m env s).2).trace = s.trace ++ t

/-- The program issues no new (successful or failed) snapshot-creation
command: any `createCM` entry of the final trace was already present. -/
def NoNewCreate {α : Type} (m : M α) : Prop :=
  ∀ env s n b, Act.createCM n b ∈ ((m env s).2).trace → Act.createCM n b ∈ s.trace

/-- Every error the program returns is neither a snapshot-deletion command
failure nor a missing-snapshot error (the two ways `DeleteConfigMap` can
fail). -/
def CleanErr {α : Type} (m : M α) : Prop :=
  ∀ env s e s', m env s = (.error e, s') →
    (∀ n, e ≠ Err.cmAbsent n) ∧ e ≠ Err.opFail Op.deleteConfigMap

/-- The workload exists, carries the patch marker, and the marker key is
bound exactly once in its pod-template annotations. -/
def annOK (c : Cluster) : Prop :=
  ∃ d, c.dep = some d ∧ lookupAnn createdByKey d.annotations = some defaultPatchCreator ∧
    d.annotations.countP (fun p => p.1 == createdByKey) = 1

/-- Every successful run of the program ends with the marker in place. -/
def EnsuresPatched (m : M Unit) : Prop :=
  ∀ env s s', m env s = (.ok (), s') → annOK s'.cluster

/-- The failure oracle injects no failures (healthy gateway). -/
def Reliable (env : Env) : Prop := ∀ n o, env.fail n o = false

/-- The failure oracle injects no failures into workload reads
(`GetDeployment` always reaches the cluster). -/
def ReadReliable (env : Env) : Prop := ∀ n, env.fail n Op.getDeployment = false

/-- Whether undoing to revision `i` reaches an unpatched pod template. -/
def clearAt (env : Env) (i : Int) : Bool := !(isMarked (env.undoHist i))

/-- The revisions the walk actually undoes to: the prefix of the visited
list up to and including the first unpatched revision. -/
def undoTrail (env : Env) : List Int → List Int
  | [] => []
  | i :: rest => if clearAt env i then [i] else i :: undoTrail env rest

/-- The undo commands recorded in a trace, in order. -/
def undosOf (tr : List Act) : List Int :=
  tr.filterMap (fun a => match a with | .undo i _ => some i | _ => none)

/-- Concrete patched workload (marker present), revision 3. -/
def depMarked : Dep := ⟨"app", [(createdByKey, defaultPatchCreator)], ["app"], 3⟩

/-- Concrete unpatched workload, revision 3. -/
def depPlain : Dep := ⟨"app", [("team", "dev")], ["app"], 3⟩

/-- Concrete patched workload at revision 1. -/
def depRev1 : Dep := ⟨"app", [(createdByKey, defaultPatchCreator)], ["app"], 1⟩

/-- Engine handle whose cached deployment is the `app` workload. -/
def gApp : Grapple := ⟨⟨"app", [], ["app"], 3⟩⟩

/-- Healthy environment: amd64 image, undo restores clean pod templates. -/
def envOK : Env := ⟨fun _ _ => false, "linux/amd64", fun _ => []⟩

/-- Healthy environment whose image reports `linux/arm64`. -/
def envArm : Env := ⟨fun _ _ => false, "linux/arm64", fun _ => []⟩

/-- Healthy environment whose image reports an unusual platform. -/
def envOdd : Env := ⟨fun _ _ => false, "freebsd/riscv64", fun _ => []⟩

/-- Healthy environment whose undo history never clears the marker. -/
def envStuck : Env := ⟨fun _ _ => false, "linux/amd64", fun _ => [(createdByKey, defaultPatchCreator)]⟩

/-- Environment failing exactly the sixth call (the change-cause update of
a revision-1 rollback). -/
def envCC : Env := ⟨fun n _ => decide (n = 5), "linux/amd64", fun _ => []⟩

/-- Environment failing every image build. -/
def envBF : Env := ⟨fun _ o => decide (o = Op.buildImage), "linux/amd64", fun _ => []⟩

/-- Environment failing every snapshot delete. -/
def envDel : Env := ⟨fun _ o => decide (o = Op.deleteConfigMap), "linux/amd64", fun _ => []⟩

/-- Healthy environment where only undoing to revision 1 clears the marker. -/
def envC3 : Env := ⟨fun _ _ => false, "linux/amd64",
  fun i => if i = 1 then [] else [(createdByKey, defaultPatchCreator)]⟩

/-- Initial state: patched workload with its snapshot configmap present. -/
def sMarked : S := ⟨⟨some depMarked, ["app" ++ defaultConfigMapDeploymentSuffix]⟩, 0, []⟩

/-- Initial state: unpatched workload, no configmaps. -/
def sPlain : S := ⟨⟨some depPlain, []⟩, 0, []⟩

/-- Initial state: patched revision-1 workload with its snapshot. -/
def sCC : S := ⟨⟨some depRev1, [cmName gApp]⟩, 0, []⟩

/-! ## Basic run lemmas -/

/-- Unfolding of `bind` runs of the engine monad. -/
theorem bind_run {α β : Type} (x : M α) (f : α → M β) (env : Env) (s : S) :
    (x >>= f) env s =
      match x env s with
      | (.ok a, s') => f a env s'
      | (.error e, s') => (.error e, s') := rfl

/-- Unfolding of `pure` runs of the engine monad. -/
theorem pure_run {α : Type} (a : α) (env : Env) (s : S) :
    (pure a : M α) env s = (.ok a, s) := rfl

/-- A successful `bind` run decomposes into two successful runs. -/
theorem ok_of_bind {α β : Type} {x : M α} {f : α → M β} {env : Env} {s : S} {b : β} {s₂ : S}
    (h : (x >>= f) env s = (.ok b, s₂)) :
    ∃ a s₁, x env s = (.ok a, s₁) ∧ f a env s₁ = (.ok b, s₂) := by
  rw [bind_run] at h
  rcases hx : x env s with ⟨r, s₁⟩
  rw [hx] at h
  cases r with
  | ok a => exact ⟨a, s₁, rfl, h⟩
  | error e => simp at h

/-- A failing `bind` run fails in the first or in the second component. -/
theorem err_of_bind {α β : Type} {x : M α} {f : α → M β} {env : Env} {s : S} {e : Err} {s₂ : S}
    (h : (x >>= f) env s = (.error e, s₂)) :
    x env s = (.error e, s₂) ∨ ∃ a s₁, x env s = (.ok a, s₁) ∧ f a env s₁ = (.error e, s₂) := by
  rw [bind_run] at h
  rcases hx : x env s with ⟨r, s₁⟩
  rw [hx] at h
  cases r with
  | ok a => exact Or.inr ⟨a, s₁, rfl, h⟩
  | error e' =>
      left
      simpa using h

/-! ## Annotation-map lemmas -/

/-- Setting a key makes it look up to the new value. -/
theorem lookup_setAnn_self (k v : String) (l : List (String × String)) :
    lookupAnn k (setAnn k v l) = some v := by
  simp [lookupAnn, setAnn]

/-- Setting one key leaves the lookup of a different key unchanged. -/
theorem lookup_setAnn_ne (k' k v : String) (l : List (String × String)) (h : k' ≠ k) :
    lookupAnn k' (setAnn k v l) = lookupAnn k' l := by
  unfold lookupAnn setAnn
  have hk : (k == k') = false := beq_eq_false_iff_ne.mpr (Ne.symm h)
  simp only [List.find?, hk]
  congr 1
  induction l with
  | nil => rfl
  | cons a t ih =>
    rcases a with ⟨ak, av⟩
    by_cases ha : ak = k
    · subst ha
      have h1 : (ak == k') = false := beq_eq_false_iff_ne.mpr (Ne.symm h)
      simp [List.filter_cons, List.find?, h1, ih]
    · have h2 : (ak != k) = true := by simp [bne_iff_ne, ha]
      by_cases ha' : ak = k'
      · subst ha'
        simp [List.filter_cons, h2, List.find?]
      · have h3 : (ak == k') = false := beq_eq_false_iff_ne.mpr ha'
        simp [List.filter_cons, h2, List.find?, h3, ih]

/-- After setting a key, that key is bound exactly once. -/
theorem countP_setAnn_self (k v : String) (l : List (String × String)) :
    (setAnn k v l).countP (fun p => p.1 == k) = 1 := by
  unfold setAnn
  rw [List.countP_cons]
  have h0 : (l.filter (fun p => p.1 != k)).countP (fun p => p.1 == k) = 0 := by
    rw [List.countP_eq_zero]
    intro a ha
    have h1 := (List.mem_filter.mp ha).2
    simp only [bne_iff_ne, ne_eq] at h1
    simp [h1]
  simp [h0]

/-- The two fixed annotation keys differ. -/
theorem createdBy_ne_changeCause : createdByKey ≠ changeCauseKey := by decide

/-- Directed unfolding of a `bind` run whose first component succeeds. -/
theorem bind_run_ok {α β : Type} {x : M α} {f : α → M β} {env : Env} {s : S} {a : α} {s₁ : S}
    (h : x env s = (.ok a, s₁)) : (x >>= f) env s = f a env s₁ := by
  rw [bind_run, h]

/-- Directed unfolding of a `bind` run whose first component fails. -/
theorem bind_run_err {α β : Type} {x : M α} {f : α → M β} {env : Env} {s : S} {e : Err} {s₁ : S}
    (h : x env s = (.error e, s₁)) : (x >>= f) env s = (.error e, s₁) := by
  rw [bind_run, h]

/-! ## Frame predicate: the set of configmaps is untouched -/

theorem preservesCM_bind {α β : Type} {x : M α} {f : α → M β}
    (hx : PreservesCM x) (hf : ∀ a, PreservesCM (f a)) : PreservesCM (x >>= f) := by
  intro env s
  rcases h : x env s with ⟨r, s₁⟩
  have h1 : s₁.cluster.configMaps = s.cluster.configMaps := by
    have h' := hx env s
    rw [h] at h'
    exact h'
  cases r with
  | ok a =>
      rw [bind_run_ok h]
      exact (hf a env s₁).trans h1
  | error e =>
      rw [bind_run_err h]
      exact h1

theorem preservesCM_pure {α : Type} (a : α) : PreservesCM (pure a : M α) :=
  fun _ _ => rfl

theorem preservesCM_thrM {α : Type} (e : Err) : PreservesCM (thrM e : M α) :=
  fun _ _ => rfl

theorem preservesCM_ite {α : Type} {c : Prop} [Decidable c] {x y : M α}
    (hx : PreservesCM x) (hy : PreservesCM y) : PreservesCM (if c then x else y) := by
  by_cases h : c
  · simpa [h] using hx
  · simpa [h] using hy

theorem preservesCM_wait : PreservesCM waitForRolloutM := by
  intro env s
  unfold waitForRolloutM
  split <;> rfl

theorem preservesCM_readAsset : PreservesCM readAssetM := by
  intro env s
  unfold readAssetM
  split <;> rfl

theorem preservesCM_mkdir : PreservesCM mkdirM :=
  fun _ _ => rfl

theorem preservesCM_writeFile : PreservesCM writeFileM := by
  intro env s
  unfold writeFileM
  split <;> rfl

theorem preservesCM_build : PreservesCM buildM := by
  intro env s
  unfold buildM
  split <;> rfl

theorem preservesCM_push : PreservesCM pushM := by
  intro env s
  unfold pushM
  split <;> rfl

theorem preservesCM_render (v : PatchValues) : PreservesCM (renderM v) := by
  intro env s
  unfold renderM
  split <;> rfl

theorem preservesCM_patchDep (v : PatchValues) : PreservesCM (patchDeploymentM v) := by
  intro env s
  unfold patchDeploymentM
  split
  · rfl
  · split <;> rfl

/-- The whole post-snapshot pipeline leaves the configmaps untouched. -/
theorem preservesCM_patchTail (g : Grapple) (repo container : String) (mounts : List Mount) :
    PreservesCM (patchTail g repo container mounts) := by
  unfold patchTail
  refine preservesCM_bind preservesCM_wait (fun _ => ?_)
  refine preservesCM_bind preservesCM_readAsset (fun _ => ?_)
  refine preservesCM_bind preservesCM_readAsset (fun _ => ?_)
  refine preservesCM_bind preservesCM_mkdir (fun _ => ?_)
  refine preservesCM_bind preservesCM_writeFile (fun _ => ?_)
  refine preservesCM_bind preservesCM_writeFile (fun _ => ?_)
  refine preservesCM_bind preservesCM_build (fun _ => ?_)
  refine preservesCM_bind ?_ (fun _ => ?_)
  · unfold maybePushM
    by_cases h : repo ≠ ""
    · simpa [h] using preservesCM_push
    · simpa [h] using preservesCM_pure ()
  · exact preservesCM_bind (preservesCM_render _) (fun v => preservesCM_patchDep v)

/-! ## Trace predicates -/

theorem appends_bind {α β : Type} {x : M α} {f : α → M β}
    (hx : Appends x) (hf : ∀ a, Appends (f a)) : Appends (x >>= f) := by
  intro env s
  rcases h : x env s with ⟨r, s₁⟩
  obtain ⟨t₁, ht₁⟩ : ∃ t, s₁.trace = s.trace ++ t := by
    obtain ⟨t, ht⟩ := hx env s
    rw [h] at ht
    exact ⟨t, ht⟩
  cases r with
  | ok a =>
      rw [bind_run_ok h]
      obtain ⟨t₂, ht₂⟩ := hf a env s₁
      exact ⟨t₁ ++ t₂, by rw [ht₂, ht₁, List.append_assoc]⟩
  | error e =>
      rw [bind_run_err h]
      exact ⟨t₁, ht₁⟩

theorem appends_pure {α : Type} (a : α) : Appends (pure a : M α) :=
  fun _ s => ⟨[], (List.append_nil s.trace).symm⟩

theorem appends_thrM {α : Type} (e : Err) : Appends (thrM e : M α) :=
  fun _ s => ⟨[], (List.append_nil s.trace).symm⟩

theorem appends_ignore {α : Type} {m : M α} (hm : Appends m) : Appends (ignoreErr m) :=
  fun env s => hm env s

theorem appends_isPatched : Appends isPatchedM := by
  intro env s
  unfold isPatchedM
  split
  · exact ⟨[.getDep false], rfl⟩
  · split
    · exact ⟨[.getDep false], rfl⟩
    · exact ⟨[.getDep true], rfl⟩

theorem appends_deleteCM (n : String) : Appends (deleteConfigMapM n) := by
  intro env s
  unfold deleteConfigMapM
  split
  · exact ⟨[.deleteCM n false], rfl⟩
  · split
    · exact ⟨[.deleteCM n true], rfl⟩
    · exact ⟨[.deleteCM n false], rfl⟩

theorem appends_undo (i : Int) : Appends (rolloutUndoM i) := by
  intro env s
  unfold rolloutUndoM
  split
  · exact ⟨[.undo i false], rfl⟩
  · split
    · exact ⟨[.undo i false], rfl⟩
    · exact ⟨[.undo i true], rfl⟩

theorem appends_changeCause (i : Int) : Appends (updateChangeCauseM i) := by
  intro env s
  unfold updateChangeCauseM
  split
  · exact ⟨[.changeCause false], rfl⟩
  · split
    · exact ⟨[.changeCause false], rfl⟩
    · exact ⟨[.changeCause true], rfl⟩

theorem appends_rollbackLoop (g : Grapple) (revs : List Int) :
    Appends (rollbackLoop g revs) := by
  induction revs with
  | nil => exact appends_thrM _
  | cons i rest ih =>
      unfold rollbackLoop
      refine appends_bind (appends_ignore (appends_deleteCM _)) (fun _ => ?_)
      refine appends_bind (appends_undo i) (fun _ => ?_)
      refine appends_bind appends_isPatched (fun p => ?_)
      by_cases hp : p = true
      · simpa [hp] using ih
      · have hp' : p = false := by
          cases p
          · rfl
          · exact absurd rfl hp
        simpa [hp'] using appends_changeCause i

theorem noNewCreate_of_act {a : Act} (h : ∀ n b, a ≠ Act.createCM n b) (s : S) {n : String}
    {b : Bool} (hm : Act.createCM n b ∈ (record a s).trace) : Act.createCM n b ∈ s.trace := by
  unfold record at hm
  rcases List.mem_append.mp hm with h1 | h1
  · exact h1
  · exact absurd (List.mem_singleton.mp h1).symm (h n b)

theorem noNewCreate_bind {α β : Type} {x : M α} {f : α → M β}
    (hx : NoNewCreate x) (hf : ∀ a, NoNewCreate (f a)) : NoNewCreate (x >>= f) := by
  intro env s n b hm
  rcases h : x env s with ⟨r, s₁⟩
  have h1 : Act.createCM n b ∈ s₁.trace → Act.createCM n b ∈ s.trace := by
    intro hin
    have h' := hx env s n b
    rw [h] at h'
    exact h' hin
  cases r with
  | ok a =>
      rw [bind_run_ok h] at hm
      exact h1 (hf a env s₁ n b hm)
  | error e =>
      rw [bind_run_err h] at hm
      exact h1 hm

theorem noNewCreate_pure {α : Type} (a : α) : NoNewCreate (pure a : M α) :=
  fun _ _ _ _ hm => hm

theorem noNewCreate_thrM {α : Type} (e : Err) : NoNewCreate (thrM e : M α) :=
  fun _ _ _ _ hm => hm

theorem noNewCreate_ignore {α : Type} {m : M α} (hm : NoNewCreate m) :
    NoNewCreate (ignoreErr m) :=
  fun env s n b h => hm env s n b h

theorem noNewCreate_isPatched : NoNewCreate isPatchedM := by
  intro env s n b hm
  unfold isPatchedM at hm
  split at hm
  · exact noNewCreate_of_act (fun _ _ h => Act.noConfusion h) s hm
  · split at hm
    · exact noNewCreate_of_act (fun _ _ h => Act.noConfusion h) s hm
    · exact noNewCreate_of_act (fun _ _ h => Act.noConfusion h) s hm

theorem noNewCreate_validate (g : Grapple) (container : String) :
    NoNewCreate (validateContainerM g container) := by
  intro env s n b hm
  unfold validateContainerM at hm
  split at hm
  · exact noNewCreate_of_act (fun _ _ h => Act.noConfusion h) s hm
  · split at hm
    · exact noNewCreate_of_act (fun _ _ h => Act.noConfusion h) s hm
    · exact noNewCreate_of_act (fun _ _ h => Act.noConfusion h) s hm

theorem noNewCreate_inspect : NoNewCreate imageInspectM := by
  intro env s n b hm
  unfold imageInspectM at hm
  split at hm
  · exact noNewCreate_of_act (fun _ _ h => Act.noConfusion h) s hm
  · exact noNewCreate_of_act (fun _ _ h => Act.noConfusion h) s hm

theorem noNewCreate_marshal : NoNewCreate marshalM := by
  intro env s n b hm
  unfold marshalM at hm
  split at hm
  · exact noNewCreate_of_act (fun _ _ h => Act.noConfusion h) s hm
  · exact noNewCreate_of_act (fun _ _ h => Act.noConfusion h) s hm

theorem noNewCreate_deleteCM (m : String) : NoNewCreate (deleteConfigMapM m) := by
  intro env s n b hm
  unfold deleteConfigMapM at hm
  split at hm
  · exact noNewCreate_of_act (fun _ _ h => Act.noConfusion h) s hm
  · split at hm
    · exact noNewCreate_of_act (fun _ _ h => Act.noConfusion h) _ hm
    · exact noNewCreate_of_act (fun _ _ h => Act.noConfusion h) s hm

theorem noNewCreate_getRev : NoNewCreate getLatestRevisionM := by
  intro env s n b hm
  unfold getLatestRevisionM at hm
  split at hm
  · exact noNewCreate_of_act (fun _ _ h => Act.noConfusion h) s hm
  · split at hm
    · exact noNewCreate_of_act (fun _ _ h => Act.noConfusion h) s hm
    · exact noNewCreate_of_act (fun _ _ h => Act.noConfusion h) s hm

theorem noNewCreate_undo (i : Int) : NoNewCreate (rolloutUndoM i) := by
  intro env s n b hm
  unfold rolloutUndoM at hm
  split at hm
  · exact noNewCreate_of_act (fun _ _ h => Act.noConfusion h) s hm
  · split at hm
    · exact noNewCreate_of_act (fun _ _ h => Act.noConfusion h) s hm
    · exact noNewCreate_of_act (fun _ _ h => Act.noConfusion h) _ hm

theorem noNewCreate_changeCause (i : Int) : NoNewCreate (updateChangeCauseM i) := by
  intro env s n b hm
  unfold updateChangeCauseM at hm
  split at hm
  · exact noNewCreate_of_act (fun _ _ h => Act.noConfusion h) s hm
  · split at hm
    · exact noNewCreate_of_act (fun _ _ h => Act.noConfusion h) s hm
    · exact noNewCreate_of_act (fun _ _ h => Act.noConfusion h) _ hm

theorem noNewCreate_rollbackLoop (g : Grapple) (revs : List Int) :
    NoNewCreate (rollbackLoop g revs) := by
  induction revs with
  | nil => exact noNewCreate_thrM _
  | cons i rest ih =>
      unfold rollbackLoop
      refine noNewCreate_bind (noNewCreate_ignore (noNewCreate_deleteCM _)) (fun _ => ?_)
      refine noNewCreate_bind (noNewCreate_undo i) (fun _ => ?_)
      refine noNewCreate_bind noNewCreate_isPatched (fun p => ?_)
      by_cases hp : p = true
      · simpa [hp] using ih
      · have hp' : p = false := by
          cases p
          · rfl
          · exact absurd rfl hp
        simpa [hp'] using noNewCreate_changeCause i

theorem noNewCreate_rollbackM (g : Grapple) : NoNewCreate (rollbackM g) := by
  unfold rollbackM
  exact noNewCreate_bind noNewCreate_getRev (fun r => noNewCreate_rollbackLoop g (revList r))

/-- No step before the snapshot creation of `Patch` issues a
snapshot-creation command. -/
theorem noNewCreate_patchPre (g : Grapple) (image platform container : String) :
    NoNewCreate (patchPre g image platform container) := by
  unfold patchPre
  refine noNewCreate_bind noNewCreate_isPatched (fun p => ?_)
  refine noNewCreate_bind ?_ (fun _ => ?_)
  · unfold rollbackIfPatched
    by_cases hp : p = true
    · simpa [hp] using noNewCreate_rollbackM g
    · have hp' : p = false := by
        cases p
        · rfl
        · exact absurd rfl hp
      simpa [hp'] using noNewCreate_pure ()
  · refine noNewCreate_bind (noNewCreate_validate g container) (fun _ => ?_)
    refine noNewCreate_bind noNewCreate_inspect (fun ip => ?_)
    refine noNewCreate_bind ?_ (fun _ => ?_)
    · unfold checkPlatform
      by_cases hm : platform ≠ ip
      · simpa [hm] using noNewCreate_thrM (Err.mismatch image ip platform)
      · simpa [hm] using noNewCreate_pure ()
    · exact noNewCreate_bind noNewCreate_marshal
        (fun _ => noNewCreate_ignore (noNewCreate_deleteCM _))

/-! ## Error provenance: snapshot-deletion failures never propagate -/

theorem cleanErr_bind {α β : Type} {x : M α} {f : α → M β}
    (hx : CleanErr x) (hf : ∀ a, CleanErr (f a)) : CleanErr (x >>= f) := by
  intro env s e s' h
  rcases err_of_bind h with h1 | ⟨a, s₁, hxa, h2⟩
  · exact hx env s e s' h1
  · exact hf a env s₁ e s' h2

theorem cleanErr_pure {α : Type} (a : α) : CleanErr (pure a : M α) := by
  intro env s e s' h
  rw [pure_run] at h
  simp at h

theorem cleanErr_ignore {α : Type} (m : M α) : CleanErr (ignoreErr m) := by
  intro env s e s' h
  unfold ignoreErr at h
  simp at h

theorem cleanErr_thrM {α : Type} {e₀ : Err} (h1 : ∀ n, e₀ ≠ Err.cmAbsent n)
    (h2 : e₀ ≠ Err.opFail Op.deleteConfigMap) : CleanErr (thrM e₀ : M α) := by
  intro env s e s' h
  unfold thrM at h
  simp only [Prod.mk.injEq, Except.error.injEq] at h
  exact h.1 ▸ ⟨h1, h2⟩

theorem cleanErr_isPatched : CleanErr isPatchedM := by
  intro env s e s' h
  unfold isPatchedM at h
  split at h
  · simp at h
  · split at h <;> simp at h

theorem cleanErr_validate (g : Grapple) (c : String) : CleanErr (validateContainerM g c) := by
  intro env s e s' h
  unfold validateContainerM at h
  split at h
  · simp only [Prod.mk.injEq, Except.error.injEq] at h
    refine h.1 ▸ ⟨fun n => ?_, ?_⟩ <;> simp
  · split at h
    · simp at h
    · simp only [Prod.mk.injEq, Except.error.injEq] at h
      refine h.1 ▸ ⟨fun n => ?_, ?_⟩ <;> simp

theorem cleanErr_inspect : CleanErr imageInspectM := by
  intro env s e s' h
  unfold imageInspectM at h
  split at h
  · simp only [Prod.mk.injEq, Except.error.injEq] at h
    refine h.1 ▸ ⟨fun n => ?_, ?_⟩ <;> simp
  · simp at h

theorem cleanErr_marshal : CleanErr marshalM := by
  intro env s e s' h
  unfold marshalM at h
  split at h
  · simp only [Prod.mk.injEq, Except.error.injEq] at h
    refine h.1 ▸ ⟨fun n => ?_, ?_⟩ <;> simp
  · simp at h

theorem cleanErr_createCM (n : String) : CleanErr (createConfigMapM n) := by
  intro env s e s' h
  unfold createConfigMapM at h
  split at h
  · simp only [Prod.mk.injEq, Except.error.injEq] at h
    refine h.1 ▸ ⟨fun n' => ?_, ?_⟩ <;> simp
  · split at h
    · simp only [Prod.mk.injEq, Except.error.injEq] at h
      refine h.1 ▸ ⟨fun n' => ?_, ?_⟩ <;> simp
    · simp at h

theorem cleanErr_wait : CleanErr waitForRolloutM := by
  intro env s e s' h
  unfold waitForRolloutM at h
  split at h
  · simp only [Prod.mk.injEq, Except.error.injEq] at h
    refine h.1 ▸ ⟨fun n => ?_, ?_⟩ <;> simp
  · simp at h

theorem cleanErr_readAsset : CleanErr readAssetM := by
  intro env s e s' h
  unfold readAssetM at h
  split at h
  · simp only [Prod.mk.injEq, Except.error.injEq] at h
    refine h.1 ▸ ⟨fun n => ?_, ?_⟩ <;> simp
  · simp at h

theorem cleanErr_mkdir : CleanErr mkdirM := by
  intro env s e s' h
  unfold mkdirM at h
  simp at h

theorem cleanErr_writeFile : CleanErr writeFileM := by
  intro env s e s' h
  unfold writeFileM at h
  split at h
  · simp only [Prod.mk.injEq, Except.error.injEq] at h
    refine h.1 ▸ ⟨fun n => ?_, ?_⟩ <;> simp
  · simp at h

theorem cleanErr_build : CleanErr buildM := by
  intro env s e s' h
  unfold buildM at h
  split at h
  · simp only [Prod.mk.injEq, Except.error.injEq] at h
    refine h.1 ▸ ⟨fun n => ?_, ?_⟩ <;> simp
  · simp at h

theorem cleanErr_push : CleanErr pushM := by
  intro env s e s' h
  unfold pushM at h
  split at h
  · simp only [Prod.mk.injEq, Except.error.injEq] at h
    refine h.1 ▸ ⟨fun n => ?_, ?_⟩ <;> simp
  · simp at h

theorem cleanErr_render (v : PatchValues) : CleanErr (renderM v) := by
  intro env s e s' h
  unfold renderM at h
  split at h
  · simp only [Prod.mk.injEq, Except.error.injEq] at h
    refine h.1 ▸ ⟨fun n => ?_, ?_⟩ <;> simp
  · simp at h

theorem cleanErr_patchDep (v : PatchValues) : CleanErr (patchDeploymentM v) := by
  intro env s e s' h
  unfold patchDeploymentM at h
  split at h
  · simp only [Prod.mk.injEq, Except.error.injEq] at h
    refine h.1 ▸ ⟨fun n => ?_, ?_⟩ <;> simp
  · split at h
    · simp only [Prod.mk.injEq, Except.error.injEq] at h
      refine h.1 ▸ ⟨fun n => ?_, ?_⟩ <;> simp
    · simp at h

theorem cleanErr_getRev : CleanErr getLatestRevisionM := by
  intro env s e s' h
  unfold getLatestRevisionM at h
  split at h
  · simp only [Prod.mk.injEq, Except.error.injEq] at h
    refine h.1 ▸ ⟨fun n => ?_, ?_⟩ <;> simp
  · split at h
    · simp only [Prod.mk.injEq, Except.error.injEq] at h
      refine h.1 ▸ ⟨fun n => ?_, ?_⟩ <;> simp
    · simp at h

theorem cleanErr_undo (i : Int) : CleanErr (rolloutUndoM i) := by
  intro env s e s' h
  unfold rolloutUndoM at h
  split at h
  · simp only [Prod.mk.injEq, Except.error.injEq] at h
    refine h.1 ▸ ⟨fun n => ?_, ?_⟩ <;> simp
  · split at h
    · simp only [Prod.mk.injEq, Except.error.injEq] at h
      refine h.1 ▸ ⟨fun n => ?_, ?_⟩ <;> simp
    · simp at h

theorem cleanErr_changeCause (i : Int) : CleanErr (updateChangeCauseM i) := by
  intro env s e s' h
  unfold updateChangeCauseM at h
  split at h
  · simp only [Prod.mk.injEq, Except.error.injEq] at h
    refine h.1 ▸ ⟨fun n => ?_, ?_⟩ <;> simp
  · split at h
    · simp only [Prod.mk.injEq, Except.error.injEq] at h
      refine h.1 ▸ ⟨fun n => ?_, ?_⟩ <;> simp
    · simp at h

theorem cleanErr_rollbackLoop (g : Grapple) (revs : List Int) :
    CleanErr (rollbackLoop g revs) := by
  induction revs with
  | nil =>
      exact cleanErr_thrM (fun n => by simp) (by simp)
  | cons i rest ih =>
      unfold rollbackLoop
      refine cleanErr_bind (cleanErr_ignore _) (fun _ => ?_)
      refine cleanErr_bind (cleanErr_undo i) (fun _ => ?_)
      refine cleanErr_bind cleanErr_isPatched (fun p => ?_)
      by_cases hp : p = true
      · simpa [hp] using ih
      · have hp' : p = false := by
          cases p
          · rfl
          · exact absurd rfl hp
        simpa [hp'] using cleanErr_changeCause i

theorem cleanErr_rollbackM (g : Grapple) : CleanErr (rollbackM g) := by
  unfold rollbackM
  exact cleanErr_bind cleanErr_getRev (fun r => cleanErr_rollbackLoop g (revList r))

theorem cleanErr_RollbackM (g : Grapple) : CleanErr (RollbackM g) := by
  unfold RollbackM
  refine cleanErr_bind cleanErr_isPatched (fun p => ?_)
  by_cases hp : p = true
  · simpa [hp] using cleanErr_rollbackM g
  · have hp' : p = false := by
      cases p
      · rfl
      · exact absurd rfl hp
    simpa [hp'] using
      cleanErr_thrM (show ∀ n, Err.notPatched ≠ Err.cmAbsent n from fun n => by simp) (by simp)

theorem cleanErr_patchPre (g : Grapple) (image platform container : String) :
    CleanErr (patchPre g image platform container) := by
  unfold patchPre
  refine cleanErr_bind cleanErr_isPatched (fun p => ?_)
  refine cleanErr_bind ?_ (fun _ => ?_)
  · unfold rollbackIfPatched
    by_cases hp : p = true
    · simpa [hp] using cleanErr_rollbackM g
    · have hp' : p = false := by
        cases p
        · rfl
        · exact absurd rfl hp
      simpa [hp'] using cleanErr_pure ()
  · refine cleanErr_bind (cleanErr_validate g container) (fun _ => ?_)
    refine cleanErr_bind cleanErr_inspect (fun ip => ?_)
    refine cleanErr_bind ?_ (fun _ => ?_)
    · unfold checkPlatform
      by_cases hm : platform ≠ ip
      · simpa [hm] using
          cleanErr_thrM (show ∀ n, Err.mismatch image ip platform ≠ Err.cmAbsent n from fun n => by simp) (by simp)
      · simpa [hm] using cleanErr_pure ()
    · exact cleanErr_bind cleanErr_marshal (fun _ => cleanErr_ignore _)

theorem cleanErr_patchTail (g : Grapple) (repo container : String) (mounts : List Mount) :
    CleanErr (patchTail g repo container mounts) := by
  unfold patchTail
  refine cleanErr_bind cleanErr_wait (fun _ => ?_)
  refine cleanErr_bind cleanErr_readAsset (fun _ => ?_)
  refine cleanErr_bind cleanErr_readAsset (fun _ => ?_)
  refine cleanErr_bind cleanErr_mkdir (fun _ => ?_)
  refine cleanErr_bind cleanErr_writeFile (fun _ => ?_)
  refine cleanErr_bind cleanErr_writeFile (fun _ => ?_)
  refine cleanErr_bind cleanErr_build (fun _ => ?_)
  refine cleanErr_bind ?_ (fun _ => ?_)
  · unfold maybePushM
    by_cases h : repo ≠ ""
    · simpa [h] using cleanErr_push
    · simpa [h] using cleanErr_pure ()
  · exact cleanErr_bind (cleanErr_render _) (fun v => cleanErr_patchDep v)

theorem cleanErr_PatchM (g : Grapple) (repo image platform container : String)
    (mounts : List Mount) : CleanErr (PatchM g repo image platform container mounts) := by
  unfold PatchM
  refine cleanErr_bind (cleanErr_patchPre g image platform container) (fun _ => ?_)
  exact cleanErr_bind (cleanErr_createCM _) (fun _ => cleanErr_patchTail g repo container mounts)

/-! ## Success of a patch establishes the marker -/

theorem ensuresPatched_bind {α : Type} {x : M α} {f : α → M Unit}
    (hf : ∀ a, EnsuresPatched (f a)) : EnsuresPatched (x >>= f) := by
  intro env s s' h
  obtain ⟨a, s₁, hx, hfa⟩ := ok_of_bind h
  exact hf a env s₁ s' hfa

theorem ensuresPatched_patchDep {v : PatchValues} (hv : v.createdBy = defaultPatchCreator) :
    EnsuresPatched (patchDeploymentM v) := by
  intro env s s' h
  unfold patchDeploymentM at h
  split at h
  · simp at h
  · split at h
    · simp at h
    · simp only [Prod.mk.injEq] at h
      rw [← h.2]
      refine ⟨_, rfl, ?_, ?_⟩
      · rw [hv]
        exact lookup_setAnn_self _ _ _
      · exact countP_setAnn_self _ _ _

theorem ensuresPatched_renderBind {V : PatchValues} (hv : V.createdBy = defaultPatchCreator) :
    EnsuresPatched (renderM V >>= fun v => patchDeploymentM v) := by
  intro env s s' h
  obtain ⟨v, s₁, hr, hp⟩ := ok_of_bind h
  have hvV : v = V := by
    unfold renderM at hr
    split at hr
    · simp at hr
    · simp only [Prod.mk.injEq, Except.ok.injEq] at hr
      exact hr.1.symm
  subst hvV
  exact ensuresPatched_patchDep hv env s₁ s' hp

/-- A successful run of the post-snapshot pipeline ends with the marker in
place (the final `PatchDeployment` writes it). -/
theorem ensuresPatched_patchTail (g : Grapple) (repo container : String) (mounts : List Mount) :
    EnsuresPatched (patchTail g repo container mounts) := by
  unfold patchTail
  refine ensuresPatched_bind (fun _ => ?_)
  refine ensuresPatched_bind (fun _ => ?_)
  refine ensuresPatched_bind (fun _ => ?_)
  refine ensuresPatched_bind (fun _ => ?_)
  refine ensuresPatched_bind (fun _ => ?_)
  refine ensuresPatched_bind (fun _ => ?_)
  refine ensuresPatched_bind (fun _ => ?_)
  refine ensuresPatched_bind (fun _ => ?_)
  exact ensuresPatched_renderBind rfl

/-- A successful run of the whole `Patch` pipeline ends with the marker in
place. -/
theorem ensuresPatched_PatchM (g : Grapple) (repo image platform container : String)
    (mounts : List Mount) : EnsuresPatched (PatchM g repo image platform container mounts) := by
  unfold PatchM
  refine ensuresPatched_bind (fun _ => ?_)
  refine ensuresPatched_bind (fun _ => ?_)
  exact ensuresPatched_patchTail g repo container mounts

/-- `annOK` implies the pure patched-state reading. -/
theorem markerPresent_of_annOK {c : Cluster} (h : annOK c) : markerPresent c = true := by
  obtain ⟨d, hd, hl, _⟩ := h
  unfold markerPresent
  rw [hd]
  unfold isMarked
  simp [hl]

/-! ## Run characterization of the rollback walk -/

/-- The trail is a prefix of the visited list. -/
theorem undoTrail_pre (env : Env) (revs : List Int) :
    ∃ t, undoTrail env revs ++ t = revs := by
  induction revs with
  | nil => exact ⟨[], rfl⟩
  | cons i rest ih =>
      by_cases h : clearAt env i
      · exact ⟨rest, by simp [undoTrail, h]⟩
      · obtain ⟨t, ht⟩ := ih
        exact ⟨t, by simp [undoTrail, h, ht]⟩

theorem isPatched_run_none {env : Env} {s : S} (hf : env.fail s.idx Op.getDeployment = false)
    (hd : s.cluster.dep = none) :
    isPatchedM env s = (.ok false, record (.getDep false) s) := by
  simp [isPatchedM, hf, hd]

theorem isPatched_run_some {env : Env} {s : S} (d : Dep)
    (hf : env.fail s.idx Op.getDeployment = false) (hd : s.cluster.dep = some d) :
    isPatchedM env s = (.ok (isMarked d.annotations), record (.getDep true) s) := by
  simp [isPatchedM, hf, hd]

/-- A best-effort snapshot delete always succeeds outward, keeps the
workload, and at most removes the named configmap. -/
theorem ignoreDelete_run (n : String) (env : Env) (s : S) :
    ∃ b cm', ignoreErr (deleteConfigMapM n) env s =
      (.ok (), ⟨⟨s.cluster.dep, cm'⟩, s.idx + 1, s.trace ++ [.deleteCM n b]⟩) := by
  unfold ignoreErr deleteConfigMapM
  by_cases hf : env.fail s.idx Op.deleteConfigMap
  · exact ⟨false, s.cluster.configMaps, by simp [hf, record]⟩
  · by_cases hm : n ∈ s.cluster.configMaps
    · exact ⟨true, s.cluster.configMaps.filter (· ≠ n), by simp [hf, hm, record]⟩
    · exact ⟨false, s.cluster.configMaps, by simp [hf, hm, record]⟩

theorem undo_run_ok {env : Env} {s : S} (d : Dep) (i : Int)
    (hf : env.fail s.idx Op.rolloutUndo = false) (hd : s.cluster.dep = some d) :
    rolloutUndoM i env s = (.ok (), record (.undo i true)
      { s with cluster := { s.cluster with dep := some { d with annotations := env.undoHist i } } }) := by
  simp [rolloutUndoM, hf, hd]

theorem changeCause_run_ok {env : Env} {s : S} (d : Dep) (i : Int)
    (hf : env.fail s.idx Op.updateChangeCause = false) (hd : s.cluster.dep = some d) :
    updateChangeCauseM i env s = (.ok (), record (.changeCause true)
      { s with cluster := { s.cluster with dep := some { d with annotations := setAnn changeCauseKey ("rollback to " ++ toString i) d.annotations } } }) := by
  simp [updateChangeCauseM, hf, hd]

theorem getRev_run_ok {env : Env} {s : S} (d : Dep)
    (hf : env.fail s.idx Op.getLatestRevision = false) (hd : s.cluster.dep = some d) :
    getLatestRevisionM env s = (.ok d.revision, record (.getRev true) s) := by
  simp [getLatestRevisionM, hf, hd]

/-- Full characterization of the rollback walk under a healthy gateway
and an existing workload: the walk issues undo commands exactly for
`undoTrail env revs` (the visited prefix up to the first unpatched
revision), succeeds at the first unpatched revision after annotating the
change cause there, and returns the named hard error when every visited
revision stays patched. -/
theorem rollbackLoop_run (g : Grapple) (env : Env) (hrel : Reliable env) :
    ∀ (revs : List Int) (s : S) (d : Dep), s.cluster.dep = some d →
      undosOf ((rollbackLoop g revs env s).2).trace = undosOf s.trace ++ undoTrail env revs ∧
      (match revs.find? (clearAt env) with
       | some i =>
           (rollbackLoop g revs env s).1 = .ok () ∧
           ∃ d', ((rollbackLoop g revs env s).2).cluster.dep = some d' ∧
             d'.annotations = setAnn changeCauseKey ("rollback to " ++ toString i) (env.undoHist i)
       | none => (rollbackLoop g revs env s).1 = .error (.exhausted g.deployment.name)) := by
  intro revs
  induction revs with
  | nil =>
      intro s d hd
      constructor
      · simp [rollbackLoop, thrM, undoTrail]
      · simp [rollbackLoop, thrM, List.find?]
  | cons i rest ih =>
      intro s d hd
      obtain ⟨b, cm', hdel⟩ := ignoreDelete_run (cmName g) env s
      have h2 : rollbackLoop g (i :: rest) env s =
          (rolloutUndoM i >>= fun _ =>
            isPatchedM >>= fun p =>
              if p then rollbackLoop g rest else updateChangeCauseM i) env
            ⟨⟨s.cluster.dep, cm'⟩, s.idx + 1, s.trace ++ [.deleteCM (cmName g) b]⟩ :=
        bind_run_ok hdel
      have h3 : rollbackLoop g (i :: rest) env s =
          (isPatchedM >>= fun p =>
            if p then rollbackLoop g rest else updateChangeCauseM i) env
            ⟨⟨some ⟨d.name, env.undoHist i, d.containers, d.revision⟩, cm'⟩,
              s.idx + 1 + 1, s.trace ++ [.deleteCM (cmName g) b] ++ [.undo i true]⟩ :=
        h2.trans (bind_run_ok (undo_run_ok d i (hrel _ _) hd))
      have h4 : rollbackLoop g (i :: rest) env s =
          (if isMarked (env.undoHist i) then rollbackLoop g rest else updateChangeCauseM i) env
            ⟨⟨some ⟨d.name, env.undoHist i, d.containers, d.revision⟩, cm'⟩,
              s.idx + 1 + 1 + 1,
              s.trace ++ [.deleteCM (cmName g) b] ++ [.undo i true] ++ [.getDep true]⟩ :=
        h3.trans (bind_run_ok (isPatched_run_some ⟨d.name, env.undoHist i, d.containers, d.revision⟩ (hrel _ _) rfl))
      by_cases hm : isMarked (env.undoHist i) = true
      · have h5 : rollbackLoop g (i :: rest) env s =
            rollbackLoop g rest env
              ⟨⟨some ⟨d.name, env.undoHist i, d.containers, d.revision⟩, cm'⟩,
                s.idx + 1 + 1 + 1,
                s.trace ++ [.deleteCM (cmName g) b] ++ [.undo i true] ++ [.getDep true]⟩ :=
          h4.trans (by rw [if_pos hm])
        rw [h5]
        obtain ⟨ihu, ihm⟩ :=
          ih ⟨⟨some ⟨d.name, env.undoHist i, d.containers, d.revision⟩, cm'⟩,
                s.idx + 1 + 1 + 1,
                s.trace ++ [.deleteCM (cmName g) b] ++ [.undo i true] ++ [.getDep true]⟩
            ⟨d.name, env.undoHist i, d.containers, d.revision⟩ rfl
        constructor
        · rw [ihu]
          have hcl : clearAt env i = false := by simp [clearAt, hm]
          simp [undosOf, List.filterMap_append, undoTrail, hcl]
        · have hfind : (i :: rest).find? (clearAt env) = rest.find? (clearAt env) := by
            have hcl : clearAt env i = false := by simp [clearAt, hm]
            simp [List.find?, hcl]
          rw [hfind]
          exact ihm
      · have hm' : isMarked (env.undoHist i) = false := by
          cases hmm : isMarked (env.undoHist i)
          · rfl
          · exact absurd hmm hm
        have h5 : rollbackLoop g (i :: rest) env s =
            updateChangeCauseM i env
              ⟨⟨some ⟨d.name, env.undoHist i, d.containers, d.revision⟩, cm'⟩,
                s.idx + 1 + 1 + 1,
                s.trace ++ [.deleteCM (cmName g) b] ++ [.undo i true] ++ [.getDep true]⟩ :=
          h4.trans (by rw [if_neg (by simp [hm'])])
        have h6 : rollbackLoop g (i :: rest) env s =
            (.ok (),
              ⟨⟨some ⟨d.name, setAnn changeCauseKey ("rollback to " ++ toString i) (env.undoHist i), d.containers, d.revision⟩, cm'⟩,
                s.idx + 1 + 1 + 1 + 1,
                s.trace ++ [.deleteCM (cmName g) b] ++ [.undo i true] ++ [.getDep true] ++ [.changeCause true]⟩) :=
          h5.trans (changeCause_run_ok ⟨d.name, env.undoHist i, d.containers, d.revision⟩ i (hrel _ _) rfl)
        rw [h6]
        have hcl : clearAt env i = true := by simp [clearAt, hm']
        constructor
        · simp [undosOf, List.filterMap_append, undoTrail, hcl]
        · have hfind : (i :: rest).find? (clearAt env) = some i := by
            simp [List.find?, hcl]
          rw [hfind]
          exact ⟨rfl, ⟨_, rfl, rfl⟩⟩

/-- Characterization of `rollback` under a healthy gateway: the walk
visits `revList d.revision` and behaves as `rollbackLoop_run` describes. -/
theorem rollbackM_run (g : Grapple) (env : Env) (hrel : Reliable env) (s : S) (d : Dep)
    (hd : s.cluster.dep = some d) :
    undosOf ((rollbackM g env s).2).trace
        = undosOf s.trace ++ undoTrail env (revList d.revision) ∧
    (match (revList d.revision).find? (clearAt env) with
     | some i =>
         (rollbackM g env s).1 = .ok () ∧
         ∃ d', ((rollbackM g env s).2).cluster.dep = some d' ∧
           d'.annotations = setAnn changeCauseKey ("rollback to " ++ toString i) (env.undoHist i)
     | none => (rollbackM g env s).1 = .error (.exhausted g.deployment.name)) := by
  have h1 : rollbackM g env s = rollbackLoop g (revList d.revision) env (record (.getRev true) s) :=
    bind_run_ok (getRev_run_ok d (hrel _ _) hd)
  rw [h1]
  obtain ⟨hu, hm⟩ := rollbackLoop_run g env hrel (revList d.revision) (record (.getRev true) s) d hd
  refine ⟨?_, hm⟩
  rw [hu]
  simp [record, undosOf, List.filterMap_append]

/-- Pure reading of an `isPatched` probe when the read reaches the
cluster: it returns the marker state and leaves the cluster unchanged. -/
theorem isPatched_run_pure {env : Env} {s : S} (hf : env.fail s.idx Op.getDeployment = false) :
    isPatchedM env s = (.ok (markerPresent s.cluster), record (.getDep s.cluster.dep.isSome) s) := by
  unfold isPatchedM markerPresent
  cases hdep : s.cluster.dep <;> simp [hdep, hf]

/-- When reads reach the cluster, a rollback walk that returns success
really ends in an unpatched state: the final change-cause write cannot
re-introduce the marker. -/
theorem rollbackLoop_ok_unmarked (g : Grapple) (env : Env) (hrr : ReadReliable env) :
    ∀ (revs : List Int) (s s' : S), rollbackLoop g revs env s = (.ok (), s') →
      markerPresent s'.cluster = false := by
  intro revs
  induction revs with
  | nil =>
      intro s s' h
      unfold rollbackLoop thrM at h
      simp at h
  | cons i rest ih =>
      intro s s' h
      unfold rollbackLoop at h
      obtain ⟨_, s₁, hdel, h⟩ := ok_of_bind h
      obtain ⟨_, s₂, hundo, h⟩ := ok_of_bind h
      obtain ⟨p, s₃, hip, h⟩ := ok_of_bind h
      rw [isPatched_run_pure (hrr _)] at hip
      simp only [Prod.mk.injEq, Except.ok.injEq] at hip
      obtain ⟨hp, hs₃⟩ := hip
      by_cases hpv : p = true
      · rw [if_pos hpv] at h
        exact ih s₃ s' h
      · have hpf : p = false := by
          cases p
          · rfl
          · exact absurd rfl hpv
        rw [hpf] at hp
        rw [if_neg (by simp [hpf])] at h
        unfold updateChangeCauseM at h
        split at h
        · simp at h
        · split at h
          · simp at h
          · rename_i d₃ heq
            simp only [Prod.mk.injEq] at h
            have hc : s₃.cluster = s₂.cluster := by rw [← hs₃]; rfl
            have hdep₂ : s₂.cluster.dep = some d₃ := by rw [← hc]; exact heq
            have hm₂ : isMarked d₃.annotations = false := by
              simpa [markerPresent, hdep₂] using hp
            rw [← h.2]
            unfold markerPresent record
            simp only
            unfold isMarked
            rw [lookup_setAnn_ne _ _ _ _ createdBy_ne_changeCause]
            unfold isMarked at hm₂
            exact hm₂

/-- `rollback` success implies the unpatched state, when reads reach the
cluster. -/
theorem rollbackM_ok_unmarked (g : Grapple) (env : Env) (hrr : ReadReliable env)
    {s s' : S} (h : rollbackM g env s = (.ok (), s')) : markerPresent s'.cluster = false := by
  unfold rollbackM at h
  obtain ⟨r, s₁, hr, h⟩ := ok_of_bind h
  exact rollbackLoop_ok_unmarked g env hrr (revList r) s₁ s' h

/-- `Rollback` success implies the unpatched state, when reads reach the
cluster. -/
theorem RollbackM_ok_unmarked (g : Grapple) (env : Env) (hrr : ReadReliable env)
    {s s' : S} (h : RollbackM g env s = (.ok (), s')) : markerPresent s'.cluster = false := by
  unfold RollbackM at h
  obtain ⟨p, s₁, hp, h⟩ := ok_of_bind h
  by_cases hpv : p = true
  · rw [if_pos hpv] at h
    exact rollbackM_ok_unmarked g env hrr h
  · have hpf : p = false := by
      cases p
      · rfl
      · exact absurd rfl hpv
    rw [if_neg (by simp [hpf])] at h
    unfold thrM at h
    simp at h

/-- An `isPatched` probe on an unpatched cluster answers `false`
(whether or not the read reaches the cluster) and leaves it unchanged. -/
theorem isPatched_run_unmarked (env : Env) {s : S} (h : markerPresent s.cluster = false) :
    ∃ b, isPatchedM env s = (.ok false, record (.getDep b) s) := by
  cases hf : env.fail s.idx Op.getDeployment with
  | true =>
      refine ⟨false, ?_⟩
      unfold isPatchedM
      simp [hf]
  | false =>
      refine ⟨s.cluster.dep.isSome, ?_⟩
      have h2 := isPatched_run_pure hf
      rw [h] at h2
      exact h2

/-- When `Patch` is invoked on an already-patched workload (and the first
probe reaches the cluster), the rollback runs first, and a rollback
failure is returned as the result of `Patch` with nothing else executed. -/
theorem PatchM_patched_rollback_first (g : Grapple)
    (repo image platform container : String) (mounts : List Mount)
    (env : Env) (s : S) (d : Dep) (hd : s.cluster.dep = some d)
    (hm : isMarked d.annotations = true)
    (hf : env.fail s.idx Op.getDeployment = false) :
    ∀ e s₁, rollbackM g env (record (.getDep true) s) = (.error e, s₁) →
      PatchM g repo image platform container mounts env s = (.error e, s₁) := by
  intro e s₁ hrb
  have hip : isPatchedM env s = (.ok true, record (.getDep true) s) := by
    have h2 := isPatched_run_some d hf hd
    rw [hm] at h2
    exact h2
  have hpre : patchPre g image platform container env s = (.error e, s₁) := by
    have h3 : patchPre g image platform container env s =
        ((rollbackIfPatched g true >>= fun _ =>
          validateContainerM g container >>= fun _ =>
            imageInspectM >>= fun ip =>
              checkPlatform image platform ip >>= fun _ =>
                marshalM >>= fun _ =>
                  ignoreErr (deleteConfigMapM (cmName g))) env (record (.getDep true) s)) :=
      bind_run_ok hip
    have hrb' : rollbackIfPatched g true env (record (.getDep true) s) = (.error e, s₁) := hrb
    exact h3.trans (bind_run_err hrb')
  exact bind_run_err hpre

/-- `Rollback` on an unpatched workload: the probe answers `false` and the
named precondition error is returned with no command issued beyond the
probe itself (cluster untouched). -/
theorem RollbackM_unpatched_run (g : Grapple) {env : Env} {s : S}
    (h : markerPresent s.cluster = false) :
    ∃ b, RollbackM g env s = (.error .notPatched, record (.getDep b) s) := by
  obtain ⟨b, hip⟩ := isPatched_run_unmarked env h
  refine ⟨b, ?_⟩
  have h2 : RollbackM g env s =
      (if (false : Bool) then rollbackM g else thrM .notPatched) env (record (.getDep b) s) :=
    bind_run_ok hip
  rw [h2]
  simp [thrM]

/-- When `Patch` is invoked on an unpatched workload with a valid
container and a platform differing from the inspected image platform, it
stops with the mismatch error naming both platforms after exactly three
read-only commands: the cluster is untouched. -/
theorem PatchM_mismatch_run (g : Grapple) (repo image platform container : String)
    (mounts : List Mount) {env : Env} {s : S}
    (h1 : markerPresent s.cluster = false)
    (h2 : container ∈ g.deployment.containers)
    (hf1 : env.fail (s.idx + 1) Op.validateContainer = false)
    (hf2 : env.fail (s.idx + 1 + 1) Op.imageInspect = false)
    (h3 : platform ≠ env.inspectPlatform) :
    ∃ b, PatchM g repo image platform container mounts env s =
      (.error (.mismatch image env.inspectPlatform platform),
        ⟨s.cluster, s.idx + 1 + 1 + 1,
          s.trace ++ [.getDep b] ++ [.validate true] ++ [.inspect true]⟩) := by
  obtain ⟨b, hip⟩ := isPatched_run_unmarked env h1
  refine ⟨b, ?_⟩
  have hval : validateContainerM g container env (record (.getDep b) s) =
      (.ok (), record (.validate true) (record (.getDep b) s)) := by
    unfold validateContainerM
    simp [record, hf1, h2]
  have hins : imageInspectM env (record (.validate true) (record (.getDep b) s)) =
      (.ok env.inspectPlatform,
        record (.inspect true) (record (.validate true) (record (.getDep b) s))) := by
    unfold imageInspectM
    simp [record, hf2]
  have hchk : checkPlatform image platform env.inspectPlatform env
      (record (.inspect true) (record (.validate true) (record (.getDep b) s))) =
      (.error (.mismatch image env.inspectPlatform platform),
        record (.inspect true) (record (.validate true) (record (.getDep b) s))) := by
    unfold checkPlatform
    rw [if_pos h3]
    rfl
  have hpre : patchPre g image platform container env s =
      (.error (.mismatch image env.inspectPlatform platform),
        record (.inspect true) (record (.validate true) (record (.getDep b) s))) := by
    have e1 : patchPre g image platform container env s =
        ((rollbackIfPatched g false >>= fun _ =>
          validateContainerM g container >>= fun _ =>
            imageInspectM >>= fun ip =>
              checkPlatform image platform ip >>= fun _ =>
                marshalM >>= fun _ =>
                  ignoreErr (deleteConfigMapM (cmName g))) env (record (.getDep b) s)) :=
      bind_run_ok hip
    have e2 : (rollbackIfPatched g false) env (record (.getDep b) s) =
        (.ok (), record (.getDep b) s) := rfl
    have e3 := e1.trans (bind_run_ok e2)
    have e4 := e3.trans (bind_run_ok hval)
    have e5 := e4.trans (bind_run_ok hins)
    exact e5.trans (bind_run_err hchk)
  exact bind_run_err hpre

/-- Once the snapshot-creation command has succeeded inside a `Patch`
run, the snapshot is in the final cluster state whatever happens later:
no later step deletes it. -/
theorem PatchM_snapshot_persists (g : Grapple) (repo image platform container : String)
    (mounts : List Mount) (env : Env) (s : S) :
    ∀ r s', PatchM g repo image platform container mounts env s = (r, s') →
      Act.createCM (cmName g) true ∈ s'.trace →
      Act.createCM (cmName g) true ∉ s.trace →
      cmName g ∈ s'.cluster.configMaps := by
  intro r s' hrun hin hout
  unfold PatchM at hrun
  rcases hpre : patchPre g image platform container env s with ⟨rp, s₁⟩
  have hnc := noNewCreate_patchPre g image platform container env s (cmName g) true
  rw [hpre] at hnc
  cases rp with
  | error e =>
      rw [bind_run_err hpre] at hrun
      have : s' = s₁ := by
        simp only [Prod.mk.injEq] at hrun
        exact hrun.2.symm
      rw [this] at hin
      exact absurd (hnc hin) hout
  | ok a =>
      rw [bind_run_ok hpre] at hrun
      have hnotin₁ : Act.createCM (cmName g) true ∉ s₁.trace := fun hx => hout (hnc hx)
      rcases hcr : createConfigMapM (cmName g) env s₁ with ⟨rc, s₂⟩
      cases rc with
      | error e =>
          rw [bind_run_err hcr] at hrun
          simp only [Prod.mk.injEq] at hrun
          rw [← hrun.2] at hin
          unfold createConfigMapM at hcr
          split at hcr
          · simp only [Prod.mk.injEq] at hcr
            rw [← hcr.2] at hin
            unfold record at hin
            rcases List.mem_append.mp hin with hx | hx
            · exact absurd hx hnotin₁
            · simp at hx
          · split at hcr
            · simp only [Prod.mk.injEq] at hcr
              rw [← hcr.2] at hin
              unfold record at hin
              rcases List.mem_append.mp hin with hx | hx
              · exact absurd hx hnotin₁
              · simp at hx
            · simp at hcr
      | ok u =>
          rw [bind_run_ok hcr] at hrun
          have hcm : cmName g ∈ s₂.cluster.configMaps := by
            unfold createConfigMapM at hcr
            split at hcr
            · simp at hcr
            · split at hcr
              · simp at hcr
              · simp only [Prod.mk.injEq] at hcr
                rw [← hcr.2]
                exact List.mem_cons_self _ _
          have hpres := preservesCM_patchTail g repo container mounts env s₂
          rw [hrun] at hpres
          have hpres' : s'.cluster.configMaps = s₂.cluster.configMaps := hpres
          rw [hpres']
          exact hcm

/-- C6: full behavioral specification of the state detector `isPatched`:
it never fails outward (the result is always `.ok`), never changes the
cluster, and answers `true` exactly when the read reaches the cluster,
the workload exists, and the marker annotation equals the creator value;
any read error (injected failure or missing workload) yields `false`. -/
theorem isPatchedM_spec (env : Env) (s : S) :
    ∃ b s'', isPatchedM env s = (.ok b, s'') ∧ s''.cluster = s.cluster ∧
      (b = true ↔ env.fail s.idx Op.getDeployment = false ∧
        ∃ d, s.cluster.dep = some d ∧
          lookupAnn createdByKey d.annotations = some defaultPatchCreator) := by
  cases hf : env.fail s.idx Op.getDeployment with
  | true =>
      refine ⟨false, record (.getDep false) s, ?_, rfl, ?_⟩
      · unfold isPatchedM
        simp [hf]
      · simp [hf]
  | false =>
      cases hdep : s.cluster.dep with
      | none =>
          refine ⟨false, record (.getDep false) s, isPatched_run_none hf hdep, rfl, ?_⟩
          simp [hdep]
      | some d =>
          refine ⟨isMarked d.annotations, record (.getDep true) s,
            isPatched_run_some d hf hdep, rfl, ?_⟩
          unfold isMarked
          simp [hf, hdep]

/-- A successful `Patch` run leaves exactly one snapshot configmap with
the workload's snapshot name. -/
theorem PatchM_ok_snapshot_count (g : Grapple) (repo image platform container : String)
    (mounts : List Mount) (env : Env) {s s' : S}
    (h : PatchM g repo image platform container mounts env s = (.ok (), s')) :
    s'.cluster.configMaps.count (cmName g) = 1 := by
  unfold PatchM at h
  obtain ⟨_, s₁, hpre, h⟩ := ok_of_bind h
  obtain ⟨_, s₂, hcr, h⟩ := ok_of_bind h
  have hcount : s₂.cluster.configMaps.count (cmName g) = 1 := by
    unfold createConfigMapM at hcr
    split at hcr
    · simp at hcr
    · split at hcr
      · simp at hcr
      · rename_i hmem
        simp only [Prod.mk.injEq] at hcr
        have h2 : s₂.cluster.configMaps = cmName g :: s₁.cluster.configMaps := by
          rw [← hcr.2]
          rfl
        rw [h2, List.count_cons_self, List.count_eq_zero.mpr hmem]
  have hpres := preservesCM_patchTail g repo container mounts env s₂
  rw [h] at hpres
  have hpres' : s'.cluster.configMaps = s₂.cluster.configMaps := hpres
  rw [hpres']
  exact hcount

/-- Even when the snapshot delete of a walk iteration fails, the walk
still issues the undo command of that iteration (delete is best-effort,
the walk continues). -/
theorem rollbackLoop_continues (g : Grapple) (env : Env) (s : S) (i : Int) (rest : List Int)
    (hf : env.fail s.idx Op.deleteConfigMap = true) :
    ∃ b t, ((rollbackLoop g (i :: rest) env s).2).trace =
      s.trace ++ [.deleteCM (cmName g) false] ++ [.undo i b] ++ t := by
  have hdel : ignoreErr (deleteConfigMapM (cmName g)) env s =
      (.ok (), record (.deleteCM (cmName g) false) s) := by
    unfold ignoreErr deleteConfigMapM
    simp [hf]
  have h2 : rollbackLoop g (i :: rest) env s =
      (rolloutUndoM i >>= fun _ =>
        isPatchedM >>= fun p =>
          if p then rollbackLoop g rest else updateChangeCauseM i) env
        (record (.deleteCM (cmName g) false) s) :=
    bind_run_ok hdel
  rcases hu : rolloutUndoM i env (record (.deleteCM (cmName g) false) s) with ⟨ru, s₂⟩
  have hs₂ : ∃ b, s₂.trace = s.trace ++ [.deleteCM (cmName g) false] ++ [.undo i b] := by
    unfold rolloutUndoM at hu
    split at hu
    · simp only [Prod.mk.injEq] at hu
      exact ⟨false, by rw [← hu.2]; rfl⟩
    · split at hu
      · simp only [Prod.mk.injEq] at hu
        exact ⟨false, by rw [← hu.2]; rfl⟩
      · simp only [Prod.mk.injEq] at hu
        exact ⟨true, by rw [← hu.2]; rfl⟩
  obtain ⟨b, hs₂⟩ := hs₂
  have happ : Appends (isPatchedM >>= fun p =>
      if p then rollbackLoop g rest else updateChangeCauseM i) := by
    refine appends_bind appends_isPatched (fun p => ?_)
    by_cases hp : p = true
    · simpa [hp] using appends_rollbackLoop g rest
    · have hp' : p = false := by
        cases p
        · rfl
        · exact absurd rfl hp
      simpa [hp'] using appends_changeCause i
  cases ru with
  | error e =>
      rw [h2.trans (bind_run_err hu)]
      refine ⟨b, [], ?_⟩
      show s₂.trace = s.trace ++ [.deleteCM (cmName g) false] ++ [.undo i b] ++ ([] : List Act)
      simp [hs₂]
  | ok u =>
      rw [h2.trans (bind_run_ok hu)]
      obtain ⟨t, ht⟩ := happ env s₂
      refine ⟨b, t, ?_⟩
      rw [ht]
      simp [hs₂]

/- Concrete workloads, environments and states used by witness runs. -/

/-! ## Claims -/

/-- C1: for every workload, if `Patch` returns success then the workload
is left in the patched state (`IsPatched` reads true: the final patch
application wrote the marker), and — provided workload reads reach the
cluster — if `Rollback` returns success the workload is left unpatched
(`IsPatched` reads false).  `markerPresent` is exactly what the next
`isPatched` probe returns when its read succeeds (`isPatched_run_pure`). -/
theorem patch_marks_and_rollback_unmarks (g : Grapple)
    (repo image platform container : String) (mounts : List Mount)
    (env : Env) (hrr : ReadReliable env) :
    (∀ s s', PatchM g repo image platform container mounts env s = (.ok (), s') →
      markerPresent s'.cluster = true) ∧
    (∀ s s', RollbackM g env s = (.ok (), s') → markerPresent s'.cluster = false) := by
  constructor
  · intro s s' h
    exact markerPresent_of_annOK
      (ensuresPatched_PatchM g repo image platform container mounts env s s' h)
  · intro s s' h
    exact RollbackM_ok_unmarked g env hrr h

/-- Witness for C1: a concrete healthy run where `Patch` succeeds and the
final state carries the marker. -/
theorem patch_marks_and_rollback_unmarks_witness :
    ReadReliable envOK ∧
    (PatchM gApp "" "img" "linux/amd64" "app" [] envOK sPlain).1 = .ok () ∧
    markerPresent ((PatchM gApp "" "img" "linux/amd64" "app" [] envOK sPlain).2).cluster = true := by
  refine ⟨fun n => rfl, rfl, ?_⟩
  exact (patch_marks_and_rollback_unmarks gApp "" "img" "linux/amd64" "app" [] envOK
    (fun n => rfl)).1 sPlain _ rfl

/-- C2: when `Patch` is invoked on an already-patched workload (first
probe reaching the cluster), the full rollback runs before any other
step and its failure is returned as the failure of the whole `Patch`
(nothing else runs: the returned state is the rollback's state); and any
successful `Patch` — in particular the second of two consecutive calls —
leaves exactly one Deployment Snapshot configmap and exactly one marker
annotation, the same shape as a single `Patch`. -/
theorem repatch_rolls_back_first_single_snapshot (g : Grapple)
    (repo image platform container : String) (mounts : List Mount)
    (env : Env) (s : S) (d : Dep)
    (hd : s.cluster.dep = some d) (hm : isMarked d.annotations = true)
    (hf : env.fail s.idx Op.getDeployment = false) :
    (∀ e s₁, rollbackM g env (record (.getDep true) s) = (.error e, s₁) →
      PatchM g repo image platform container mounts env s = (.error e, s₁)) ∧
    (∀ s', PatchM g repo image platform container mounts env s = (.ok (), s') →
      s'.cluster.configMaps.count (cmName g) = 1 ∧ annOK s'.cluster) := by
  constructor
  · exact PatchM_patched_rollback_first g repo image platform container mounts env s d hd hm hf
  · intro s' h
    exact ⟨PatchM_ok_snapshot_count g repo image platform container mounts env h,
      ensuresPatched_PatchM g repo image platform container mounts env s s' h⟩

/-- Witness for C2 at a patched workload whose rollback cannot succeed
(the undo history never clears the marker): the exhaustion error of the
rollback aborts the whole `Patch`. -/
theorem repatch_rolls_back_first_single_snapshot_witness :
    sMarked.cluster.dep = some depMarked ∧ isMarked depMarked.annotations = true ∧
    envStuck.fail sMarked.idx Op.getDeployment = false ∧
    (PatchM gApp "" "img" "linux/amd64" "app" [] envStuck sMarked).1 =
      .error (.exhausted "app") := by
  refine ⟨rfl, by decide, rfl, ?_⟩
  have h := (repatch_rolls_back_first_single_snapshot gApp "" "img" "linux/amd64" "app" []
    envStuck sMarked depMarked rfl (by decide) rfl).1
  have hrb := h (.exhausted "app")
    ((rollbackM gApp envStuck (record (.getDep true) sMarked)).2) rfl
  rw [hrb]

/-- C3: under a healthy gateway and an existing workload with latest
revision `r`, the rollback walk undoes exactly along `undoTrail` — a
prefix of `revList r = [r-1, ..., 0]`, i.e. strictly decreasing from
`r-1` — re-checking the patched state after each undo; it returns success
at the first revision whose restored pod template is unpatched, after
writing the `rollback to i` change cause, and returns the hard error
naming the workload when every revision is exhausted, never silent
success. -/
theorem rollback_walk_descending_stops_first_clear (g : Grapple) (env : Env)
    (hrel : Reliable env) (s : S) (d : Dep) (hd : s.cluster.dep = some d) :
    undosOf ((rollbackM g env s).2).trace
        = undosOf s.trace ++ undoTrail env (revList d.revision) ∧
    (∃ t, undoTrail env (revList d.revision) ++ t = revList d.revision) ∧
    (match (revList d.revision).find? (clearAt env) with
     | some i =>
         (rollbackM g env s).1 = .ok () ∧
         ∃ d', ((rollbackM g env s).2).cluster.dep = some d' ∧
           d'.annotations = setAnn changeCauseKey ("rollback to " ++ toString i) (env.undoHist i)
     | none => (rollbackM g env s).1 = .error (.exhausted g.deployment.name)) := by
  obtain ⟨h1, h2⟩ := rollbackM_run g env hrel s d hd
  exact ⟨h1, undoTrail_pre env _, h2⟩

/-- Witness for C3: revision 3, marker cleared first at revision 1: the
walk undoes to 2 then 1 (in that order) and stops with success. -/
theorem rollback_walk_descending_stops_first_clear_witness :
    Reliable envC3 ∧ sMarked.cluster.dep = some depMarked ∧
    undosOf ((rollbackM gApp envC3 sMarked).2).trace = [2, 1] ∧
    (rollbackM gApp envC3 sMarked).1 = .ok () := by
  have h := rollback_walk_descending_stops_first_clear gApp envC3
    (fun n o => rfl) sMarked depMarked rfl
  exact ⟨fun n o => rfl, rfl, h.1, h.2.2.1⟩

/-- C4: `Rollback` on an unpatched workload returns the explicit
"not patched" error immediately: the only issued command is the read
probe itself — no undo command, no snapshot delete, cluster untouched. -/
theorem rollback_unpatched_named_error_no_commands (g : Grapple) (env : Env) (s : S)
    (h : markerPresent s.cluster = false) :
    ∃ b, RollbackM g env s = (.error .notPatched, record (.getDep b) s) ∧
      ((RollbackM g env s).2).cluster = s.cluster ∧
      undosOf ((RollbackM g env s).2).trace = undosOf s.trace := by
  obtain ⟨b, heq⟩ := RollbackM_unpatched_run g h
  refine ⟨b, heq, ?_, ?_⟩
  · rw [heq]
    rfl
  · rw [heq]
    simp [record, undosOf, List.filterMap_append]

/-- Witness for C4 at a concrete unpatched workload. -/
theorem rollback_unpatched_named_error_no_commands_witness :
    markerPresent sPlain.cluster = false ∧
    ∃ b, RollbackM gApp envOK sPlain = (.error .notPatched, record (.getDep b) sPlain) ∧
      ((RollbackM gApp envOK sPlain).2).cluster = sPlain.cluster ∧
      undosOf ((RollbackM gApp envOK sPlain).2).trace = undosOf sPlain.trace :=
  ⟨by decide, rollback_unpatched_named_error_no_commands gApp envOK sPlain (by decide)⟩

/-- C5 counterexample: on an already-patched workload the pre-rollback
mutates the cluster (deletes the snapshot configmap and issues an undo)
before the platform comparison, so the mismatch error is NOT raised
before every cluster mutation of the invocation: the claim fails as
universally stated. -/
theorem platform_mismatch_mutation_counterexample :
    (PatchM gApp "" "img" "linux/amd64" "app" [] envArm sMarked).1 =
      .error (.mismatch "img" "linux/arm64" "linux/amd64") ∧
    Act.deleteCM (cmName gApp) true ∈
      ((PatchM gApp "" "img" "linux/amd64" "app" [] envArm sMarked).2).trace ∧
    Act.undo 2 true ∈
      ((PatchM gApp "" "img" "linux/amd64" "app" [] envArm sMarked).2).trace ∧
    ((PatchM gApp "" "img" "linux/amd64" "app" [] envArm sMarked).2).cluster ≠
      sMarked.cluster := by
  refine ⟨rfl, by decide, by decide, by decide⟩

/-- C5 (amended): when the workload is NOT already patched (so no
pre-rollback runs), a platform mismatch is a hard error carrying both
platform values, raised before any cluster mutation: the returned state
keeps the cluster of the initial state — in particular no Deployment
Snapshot is created or deleted — and only the three read-only probes ran. -/
theorem platform_mismatch_before_mutation (g : Grapple)
    (repo image platform container : String) (mounts : List Mount)
    (env : Env) (s : S)
    (h1 : markerPresent s.cluster = false)
    (h2 : container ∈ g.deployment.containers)
    (hf1 : env.fail (s.idx + 1) Op.validateContainer = false)
    (hf2 : env.fail (s.idx + 1 + 1) Op.imageInspect = false)
    (h3 : platform ≠ env.inspectPlatform) :
    ∃ b, PatchM g repo image platform container mounts env s =
      (.error (.mismatch image env.inspectPlatform platform),
        ⟨s.cluster, s.idx + 1 + 1 + 1,
          s.trace ++ [.getDep b] ++ [.validate true] ++ [.inspect true]⟩) :=
  PatchM_mismatch_run g repo image platform container mounts h1 h2 hf1 hf2 h3

/-- Witness for the amended C5 at a concrete unpatched workload and an
arm64 image against a requested amd64 platform. -/
theorem platform_mismatch_before_mutation_witness :
    markerPresent sPlain.cluster = false ∧ "app" ∈ gApp.deployment.containers ∧
    "linux/amd64" ≠ envArm.inspectPlatform ∧
    ∃ b, PatchM gApp "" "img" "linux/amd64" "app" [] envArm sPlain =
      (.error (.mismatch "img" envArm.inspectPlatform "linux/amd64"),
        ⟨sPlain.cluster, sPlain.idx + 1 + 1 + 1,
          sPlain.trace ++ [.getDep b] ++ [.validate true] ++ [.inspect true]⟩) :=
  ⟨by decide, by decide, by decide,
    platform_mismatch_before_mutation gApp "" "img" "linux/amd64" "app" [] envArm sPlain
      (by decide) (by decide) rfl rfl (by decide)⟩

/-- C7 counterexample: the platform value is never validated against the
enumerated suggestion set: a platform outside `PlatformSuggest` that
matches the inspected image platform raises no configuration error at
all — the whole `Patch` succeeds and the build is attempted. -/
theorem platform_not_enumerated_counterexample :
    "freebsd/riscv64" ∉ PlatformSuggest ∧
    (PatchM gApp "" "img" "freebsd/riscv64" "app" [] envOdd sPlain).1 = .ok () ∧
    Act.build true ∈
      ((PatchM gApp "" "img" "freebsd/riscv64" "app" [] envOdd sPlain).2).trace := by
  refine ⟨by decide, rfl, by decide⟩

/-- C7 (amended): the engine enforces no enumerated platform set; the two
supported values exist only as interactive wizard suggestions
(`PlatformSuggest`).  What is enforced before any build attempt is
equality with the inspected image platform: any differing platform value
is rejected with the mismatch error and no build command is ever issued. -/
theorem platform_equality_check_before_build (g : Grapple)
    (repo image platform container : String) (mounts : List Mount)
    (env : Env) (s : S)
    (h1 : markerPresent s.cluster = false)
    (h2 : container ∈ g.deployment.containers)
    (hf1 : env.fail (s.idx + 1) Op.validateContainer = false)
    (hf2 : env.fail (s.idx + 1 + 1) Op.imageInspect = false)
    (h3 : platform ≠ env.inspectPlatform)
    (hb : ∀ b, Act.build b ∉ s.trace) :
    (PatchM g repo image platform container mounts env s).1 =
      .error (.mismatch image env.inspectPlatform platform) ∧
    ∀ b, Act.build b ∉ ((PatchM g repo image platform container mounts env s).2).trace := by
  obtain ⟨b, h⟩ := PatchM_mismatch_run g repo image platform container mounts h1 h2 hf1 hf2 h3
  rw [h]
  constructor
  · rfl
  · intro b' hmem
    simp only [List.mem_append, List.mem_singleton] at hmem
    rcases hmem with ((hx | hx) | hx) | hx
    · exact hb b' hx
    · exact Act.noConfusion hx
    · exact Act.noConfusion hx
    · exact Act.noConfusion hx

/-- Witness for the amended C7 at a concrete unpatched workload. -/
theorem platform_equality_check_before_build_witness :
    markerPresent sPlain.cluster = false ∧ "linux/arm64" ≠ envOK.inspectPlatform ∧
    (PatchM gApp "" "img" "linux/arm64" "app" [] envOK sPlain).1 =
      .error (.mismatch "img" envOK.inspectPlatform "linux/arm64") ∧
    ∀ b, Act.build b ∉ ((PatchM gApp "" "img" "linux/arm64" "app" [] envOK sPlain).2).trace := by
  have h := platform_equality_check_before_build gApp "" "img" "linux/arm64" "app" [] envOK sPlain
    (by decide) (by decide) rfl rfl (by decide) (by decide)
  exact ⟨by decide, by decide, h.1, h.2⟩

/-- C8: snapshot deletion is always best-effort: neither `Patch` nor
`Rollback` ever returns a delete failure (injected command failure or
missing configmap) as its own error, and inside a rollback iteration a
failed delete is followed by the undo command all the same (the walk
continues). -/
theorem delete_best_effort_never_fails_operation (g : Grapple)
    (repo image platform container : String) (mounts : List Mount) :
    CleanErr (PatchM g repo image platform container mounts) ∧
    CleanErr (RollbackM g) ∧
    (∀ env s i rest, env.fail s.idx Op.deleteConfigMap = true →
      ∃ b t, ((rollbackLoop g (i :: rest) env s).2).trace =
        s.trace ++ [.deleteCM (cmName g) false] ++ [.undo i b] ++ t) :=
  ⟨cleanErr_PatchM g repo image platform container mounts, cleanErr_RollbackM g,
    fun env s i rest hf => rollbackLoop_continues g env s i rest hf⟩

/-- Witness for C8: a concrete iteration whose snapshot delete fails and
whose undo is still issued. -/
theorem delete_best_effort_never_fails_operation_witness :
    envDel.fail sMarked.idx Op.deleteConfigMap = true ∧
    ∃ b t, ((rollbackLoop gApp [2, 1, 0] envDel sMarked).2).trace =
      sMarked.trace ++ [.deleteCM (cmName gApp) false] ++ [.undo 2 b] ++ t := by
  exact ⟨rfl, (delete_best_effort_never_fails_operation gApp "" "img" "linux/amd64" "app" []).2.2
    envDel sMarked 2 [1, 0] rfl⟩

/-- C9: once the snapshot-creation command has succeeded inside a `Patch`
run, the snapshot configmap is present in the final cluster state on
every error return (indeed on every return): no later step performs any
cleanup of it. -/
theorem snapshot_remains_after_failure (g : Grapple)
    (repo image platform container : String) (mounts : List Mount)
    (env : Env) (s : S) (e : Err) (s' : S)
    (hrun : PatchM g repo image platform container mounts env s = (.error e, s'))
    (hcreated : Act.createCM (cmName g) true ∈ s'.trace)
    (hfresh : Act.createCM (cmName g) true ∉ s.trace) :
    cmName g ∈ s'.cluster.configMaps :=
  PatchM_snapshot_persists g repo image platform container mounts env s
    (.error e) s' hrun hcreated hfresh

/-- Witness for C9: a run whose image build fails after the snapshot was
created; the snapshot is still present in the final state. -/
theorem snapshot_remains_after_failure_witness :
    PatchM gApp "" "img" "linux/amd64" "app" [] envBF sPlain =
      (.error (.opFail Op.buildImage),
        (PatchM gApp "" "img" "linux/amd64" "app" [] envBF sPlain).2) ∧
    Act.createCM (cmName gApp) true ∈
      ((PatchM gApp "" "img" "linux/amd64" "app" [] envBF sPlain).2).trace ∧
    cmName gApp ∈ ((PatchM gApp "" "img" "linux/amd64" "app" [] envBF sPlain).2).cluster.configMaps := by
  refine ⟨rfl, by decide, ?_⟩
  exact snapshot_remains_after_failure gApp "" "img" "linux/amd64" "app" [] envBF sPlain
    (.opFail Op.buildImage) _ rfl (by decide) (by decide)

/-- C10: a `Rollback` error does not imply the workload is still patched:
in this concrete run the undo reaches the unpatched state, the subsequent
change-cause update fails, and `Rollback` returns that failure while the
final cluster state is unpatched. -/
theorem rollback_error_despite_unpatched :
    (RollbackM gApp envCC sCC).1 = .error (.opFail Op.updateChangeCause) ∧
    markerPresent ((RollbackM gApp envCC sCC).2).cluster = false := by
  exact ⟨rfl, rfl⟩
